import Mathlib

/-!
Shallow embedding of the bike-gear e-commerce backend (Django project):
catalog (`catalog/models.py`), cart (`cart/models.py`), accounts
(`accounts/models.py`), orders (`orders/models.py`) and the API order/cart
views (`api/views/order.py`, `api/views/cart.py`).

Conventions of the embedding:
* `DecimalField` money values become `Int` (exact arithmetic, scale irrelevant
  to the verified properties); quantities (`PositiveIntegerField`) are `Nat`.
* Foreign keys become `Option Nat` ids plus `find?` lookups in a `Db` record
  that plays the role of the relational store; Django's `SET_NULL` means a
  stored id whose lookup fails behaves like a NULL reference.
* A Django method that early-returns an HTTP error becomes an
  `Except`-shaped result paired with the (unchanged) database;
  `transaction.atomic` is modelled by returning the original `Db` whenever
  the transaction body raises.
* `ProductVariant.get_attributes_display()` joins rows of the
  `VariantAttribute` junction table; the embedding collapses that join into a
  precomputed `attributes_display` field on the variant.
-/

namespace BikeGear

/-- `Order.STATUS_CHOICES` in `orders/models.py`. -/
inductive OrderStatus where
  | pending
  | processing
  | shipped
  | delivered
  | cancelled
deriving Repr, DecidableEq

/-- `Order.PAYMENT_STATUS_CHOICES` in `orders/models.py`. -/
inductive PayStatus where
  | unpaid
  | paid
  | failed
  | refunded
deriving Repr, DecidableEq

/-- `Address.ADDRESS_TYPE_CHOICES` in `accounts/models.py`. -/
inductive AddrType where
  | billing
  | shipping
deriving Repr, DecidableEq

/-- `catalog.models.Product` (fields used by the cart/order flows). -/
structure Product where
  id : Nat
  title : String
  price : Int
  sale_price : Option Int
  stock : Int
  is_active : Bool
deriving Repr, DecidableEq

/-- `catalog.models.ProductVariant`; `attributes_display` is the value
`get_attributes_display()` computes from the `VariantAttribute` join. -/
structure ProductVariant where
  id : Nat
  product_id : Nat
  sku : String
  price : Int
  sale_price : Option Int
  stock : Int
  is_active : Bool
  attributes_display : String
deriving Repr, DecidableEq

/-- `ProductVariant.get_effective_price`. -/
def ProductVariant.get_effective_price (v : ProductVariant) : Int :=
  match v.sale_price with
  | some sp => sp
  | none => v.price

/-- `ProductVariant.is_on_sale`: `sale_price is not None`. -/
def ProductVariant.is_on_sale (v : ProductVariant) : Bool :=
  v.sale_price.isSome

/-- `ProductVariant.is_in_stock`. -/
def ProductVariant.is_in_stock (v : ProductVariant) : Bool :=
  v.stock > 0

/-- `accounts.models.Address`. -/
structure Address where
  id : Nat
  user_id : Option Nat
  address_type : AddrType
  label : String
  phone : String
  street : String
  city : String
  state : String
  postal_code : String
  country : String
  is_default_billing : Bool
  is_default_shipping : Bool
deriving Repr, DecidableEq

/-- The guest-address JSON payload validated by `GuestAddressSerializer`
(`api/serializers/order.py`). -/
structure GuestAddress where
  label : String
  phone : String
  street : String
  city : String
  state : String
  postal_code : String
  country : String
deriving Repr, DecidableEq

/-- `cart.models.Cart`. -/
structure Cart where
  id : Nat
  user_id : Option Nat
  session_key : Option String
deriving Repr, DecidableEq

/-- `cart.models.CartItem`.  `variant_id` / `product_id` are the two mutually
exclusive foreign keys; `variant_sku`, `product_title`, `variant_attributes`
are the denormalized backup columns filled by `CartItem.save`. -/
structure CartItem where
  id : Nat
  cart_id : Nat
  variant_id : Option Nat
  product_id : Option Nat
  variant_sku : String
  product_title : String
  variant_attributes : String
  quantity : Nat
  price_snapshot : Int
deriving Repr, DecidableEq

/-- `orders.models.Order`.  `order_seq` is the numeric part of the generated
`order_number`; the rendered string is `Order.order_number` below. -/
structure Order where
  id : Nat
  user_id : Option Nat
  session_key : Option String
  order_seq : Nat
  status : OrderStatus
  payment_status : PayStatus
  billing_address_id : Option Nat
  shipping_address_id : Option Nat
  guest_email : Option String
  guest_phone : Option String
  guest_billing_address_data : Option GuestAddress
  guest_shipping_address_data : Option GuestAddress
  subtotal : Int
  discount : Int
  shipping_cost : Int
  total_price : Int
deriving Repr, DecidableEq

/-- The string stored in the `order_number` column:
`f"{prefix}-{next_id}"` with `prefix = "ORD"` (`Order.save`). -/
def Order.order_number (o : Order) : String :=
  "ORD-" ++ toString o.order_seq

/-- `orders.models.OrderItem`. -/
structure OrderItem where
  order_id : Nat
  product_id : Option Nat
  variant_id : Option Nat
  product_title : String
  variant_sku : String
  variant_attributes : String
  quantity : Nat
  unit_price : Int
  subtotal : Int
deriving Repr, DecidableEq

/-- `orders.models.Payment` (fields relevant to order creation). -/
structure Payment where
  order_id : Nat
  method : String
  amount : Int
  success : Bool
deriving Repr, DecidableEq

/-- The relational store: one list per table, plus the auto-increment
counters of the rows the modelled flows create. -/
structure Db where
  products : List Product
  variants : List ProductVariant
  addresses : List Address
  carts : List Cart
  cartItems : List CartItem
  orders : List Order
  orderItems : List OrderItem
  payments : List Payment
  nextOrderId : Nat
  nextAddressId : Nat
deriving Repr, DecidableEq

def findProduct (db : Db) (i : Nat) : Option Product :=
  db.products.find? (fun p => p.id == i)

def findVariant (db : Db) (i : Nat) : Option ProductVariant :=
  db.variants.find? (fun v => v.id == i)

def findAddress (db : Db) (i : Nat) : Option Address :=
  db.addresses.find? (fun a => a.id == i)

/-- Dereference `cart_item.variant` (NULL when the FK is null or the row is
gone, mirroring `on_delete=SET_NULL`). -/
def CartItem.variantObj (db : Db) (it : CartItem) : Option ProductVariant :=
  it.variant_id.bind (findVariant db)

/-- Dereference `cart_item.product`. -/
def CartItem.productObj (db : Db) (it : CartItem) : Option Product :=
  it.product_id.bind (findProduct db)

/-- `CartItem.get_total`: `price_snapshot * quantity` (the snapshot column is
NOT NULL, so the `None` guard of the Python code is vacuous here). -/
def CartItem.get_total (it : CartItem) : Int :=
  it.price_snapshot * (it.quantity : Int)

/-- Python truthiness of a `DecimalField` value: `None` and `0` are falsy. -/
def decimalTruthy : Option Int → Bool
  | none => false
  | some x => x != 0

/-- The `elif self.product and self.product.sale_price:` branch of
`CartItem.get_savings`. -/
def productBranchSavings : Option Product → Nat → Int
  | some p, q =>
      match p.sale_price with
      | some sp => if sp == 0 then 0 else (p.price - sp) * (q : Int)
      | none => 0
  | none, _ => 0

/-- `CartItem.get_savings`: variant branch requires `is_on_sale()`
(`sale_price is not None`); otherwise control falls through to the product
branch, which tests plain truthiness of `product.sale_price`. -/
def CartItem.get_savings (db : Db) (it : CartItem) : Int :=
  match it.variantObj db with
  | some v =>
      match v.sale_price with
      | some sp => (v.price - sp) * (it.quantity : Int)
      | none => productBranchSavings (it.productObj db) it.quantity
  | none => productBranchSavings (it.productObj db) it.quantity

/-- `CartItem.get_stock`: variant stock, else product stock, else 0. -/
def CartItem.get_stock (db : Db) (it : CartItem) : Int :=
  match it.variantObj db with
  | some v => v.stock
  | none =>
      match it.productObj db with
      | some p => p.stock
      | none => 0

/-- `CartItem.get_display_title` (note: this method exists; the create-order
view instead calls a method named `get_display_name`, which does not). -/
def CartItem.get_display_title (db : Db) (it : CartItem) : String :=
  match it.variantObj db with
  | some v =>
      let ptitle := ((findProduct db v.product_id).map Product.title).getD ""
      if v.attributes_display ≠ "" then
        ptitle ++ " (" ++ v.attributes_display ++ ")"
      else ptitle
  | none =>
      match it.productObj db with
      | some p => p.title
      | none =>
          if it.variant_attributes ≠ "" then
            it.product_title ++ " (" ++ it.variant_attributes ++ ")"
          else it.product_title

/-- `cart.items.all()`: the reverse FK query set of a cart. -/
def cartItemsOf (db : Db) (cid : Nat) : List CartItem :=
  db.cartItems.filter (fun it => it.cart_id == cid)

/-- `Cart.get_subtotal`: `sum(item.get_total() for item in self.items.all())`. -/
def Cart.get_subtotal (db : Db) (cid : Nat) : Int :=
  ((cartItemsOf db cid).map CartItem.get_total).sum

/-- `Cart.get_total_savings`: `sum(item.get_savings() for item ...)`. -/
def Cart.get_total_savings (db : Db) (cid : Nat) : Int :=
  ((cartItemsOf db cid).map (CartItem.get_savings db)).sum

/-- `Cart.get_total_items`. -/
def Cart.get_total_items (db : Db) (cid : Nat) : Nat :=
  ((cartItemsOf db cid).map CartItem.quantity).sum

/-!
## Accounts: `Address.save` and its two conditional unique constraints
-/

/-- The two `UniqueConstraint`s of `Address.Meta`: among rows of one
`(user, address_type)` there may be at most one with `is_default_billing=True`
and at most one with `is_default_shipping=True`.  `addressWouldClash addrs a`
says inserting/updating `a` into `addrs` would raise `IntegrityError`. -/
def addressWouldClash (addrs : List Address) (a : Address) : Bool :=
  (a.is_default_billing && addrs.any (fun b =>
      b.id != a.id && b.user_id == a.user_id &&
      b.address_type == a.address_type && b.is_default_billing)) ||
  (a.is_default_shipping && addrs.any (fun b =>
      b.id != a.id && b.user_id == a.user_id &&
      b.address_type == a.address_type && b.is_default_shipping))

/-- Write the row itself: replace the row with the same pk, or append. -/
def addressUpsert (addrs : List Address) (a : Address) : List Address :=
  if addrs.any (fun b => b.id == a.id) then
    addrs.map (fun b => if b.id == a.id then a else b)
  else addrs ++ [a]

/-- `Address.save` in `accounts/models.py`: two "unset siblings" bulk updates
(each scoped to the fixed literal `address_type` of its flag), then the row
write.  The bulk updates run in autocommit mode, so they persist even when the
final write is rejected by a unique constraint. -/
def addressSave (addrs : List Address) (a : Address) : List Address :=
  let s1 := addrs.map (fun b =>
    if a.is_default_billing && b.user_id == a.user_id &&
       b.address_type == AddrType.billing && b.is_default_billing &&
       b.id != a.id
    then { b with is_default_billing := false } else b)
  let s2 := s1.map (fun b =>
    if a.is_default_shipping && b.user_id == a.user_id &&
       b.address_type == AddrType.shipping && b.is_default_shipping &&
       b.id != a.id
    then { b with is_default_shipping := false } else b)
  if addressWouldClash s2 a then s2 else addressUpsert s2 a

/-!
## Cart merge (`CartView._merge_carts` in `api/views/cart.py`)

The loop body looks up `user_cart.items.filter(variant=guest_item.variant)
.first()`: an exact-match filter on the `variant` FK, which for a NULL
variant becomes `variant IS NULL` and therefore matches any variant-less
user item.  On a hit the quantities add; on a miss the guest item row is
re-pointed at the user cart.  (`CartItem.save` also refreshes the backup
display columns from the live variant/product; that refresh does not touch
the identity, quantity or snapshot fields reasoned about here, and item
ordering by `added_at` is modelled as list order.)
-/

/-- One iteration of the merge loop applied to the user cart's item list. -/
def mergeStep (us : List CartItem) (g : CartItem) : List CartItem :=
  match us with
  | [] => [g]
  | u :: rest =>
      if u.variant_id == g.variant_id then
        { u with quantity := u.quantity + g.quantity } :: rest
      else u :: mergeStep rest g

/-- The pair of carts `_merge_carts` operates on; `guestItems = none` means
the guest cart row no longer exists. -/
structure CartsState where
  userItems : List CartItem
  guestItems : Option (List CartItem)
deriving Repr, DecidableEq

/-- `_merge_carts(guest_cart, user_cart)`: fold the loop over the guest
items, then `guest_cart.delete()` (which cascades onto any item row still
attached to it). -/
def mergeCarts (s : CartsState) : CartsState :=
  match s.guestItems with
  | none => s
  | some gs => { userItems := gs.foldl mergeStep s.userItems, guestItems := none }

/-!
## Orders: number generation, `Order.create_from_cart`
-/

/-- `Order.objects.order_by('-id').first()` - the largest existing order id
(0 when the table is empty, making `next_id = 1`). -/
def maxOrderId (db : Db) : Nat :=
  db.orders.foldr (fun o m => max o.id m) 0

/-- The numeric part of the order number generated by `Order.save`:
`1 if not last_order else last_order.id + 1`. -/
def nextOrderSeq (db : Db) : Nat :=
  maxOrderId db + 1

/-- `Order.objects.create(...)` for a row without a preset `order_number`:
`save` fills `order_number = f"ORD-{next_id}"`, the database assigns the pk. -/
def orderCreateRow (db : Db) (user_id : Option Nat) (session_key : Option String)
    (billing_address_id shipping_address_id : Option Nat)
    (guest_email guest_phone : Option String)
    (guest_billing guest_shipping : Option GuestAddress)
    (subtotal discount shipping_cost total_price : Int) : Db × Order :=
  let o : Order :=
    { id := db.nextOrderId
      user_id := user_id
      session_key := session_key
      order_seq := nextOrderSeq db
      status := OrderStatus.pending
      payment_status := PayStatus.unpaid
      billing_address_id := billing_address_id
      shipping_address_id := shipping_address_id
      guest_email := guest_email
      guest_phone := guest_phone
      guest_billing_address_data := guest_billing
      guest_shipping_address_data := guest_shipping
      subtotal := subtotal
      discount := discount
      shipping_cost := shipping_cost
      total_price := total_price }
  ({ db with orders := db.orders ++ [o], nextOrderId := db.nextOrderId + 1 }, o)

/-- Deleting an order row (e.g. from the admin): `on_delete=CASCADE` removes
its items and payment. -/
def deleteOrder (db : Db) (oid : Nat) : Db :=
  { db with
    orders := db.orders.filter (fun o => o.id != oid)
    orderItems := db.orderItems.filter (fun it => it.order_id != oid)
    payments := db.payments.filter (fun p => p.order_id != oid) }

/-- The `OrderItem.objects.create(...)` call inside `Order.create_from_cart`:
note `product = item.variant.product if item.variant else None` (the base
`item.product` FK is not consulted). -/
def createFromCartItemRow (db : Db) (oid : Nat) (it : CartItem) : OrderItem :=
  { order_id := oid
    product_id := (it.variantObj db).map ProductVariant.product_id
    variant_id := it.variant_id
    product_title := it.product_title
    variant_sku := it.variant_sku
    variant_attributes := it.variant_attributes
    quantity := it.quantity
    unit_price := it.price_snapshot
    subtotal := it.get_total }

/-- `Order.create_from_cart` (`orders/models.py`): create the order row,
snapshot every cart item into an `OrderItem`, then `cart.clear()`.  No stock
check, no stock mutation, no `Payment` row. -/
def orderCreateFromCart (db : Db) (cart : Cart)
    (billing_address_id shipping_address_id : Option Nat)
    (discount shipping_cost : Int) : Db × Order :=
  let subtotal := Cart.get_subtotal db cart.id
  let total_price := subtotal - discount + shipping_cost
  let (db1, o) := orderCreateRow db cart.user_id cart.session_key
    billing_address_id shipping_address_id none none none none
    subtotal discount shipping_cost total_price
  let db2 := { db1 with
    orderItems := db1.orderItems ++
      (cartItemsOf db cart.id).map (createFromCartItemRow db o.id) }
  let db3 := { db2 with
    cartItems := db2.cartItems.filter (fun it => it.cart_id != cart.id) }
  (db3, o)

/-!
## The API order transaction (`api/views/order.py`)
-/

/-- The request actor: authenticated user, or guest identified by the
(possibly absent) session key. -/
inductive Actor where
  | user (uid : Nat)
  | guest (session_key : Option String)
deriving Repr, DecidableEq

/-- `CreateOrderSerializer.validated_data` (defaults already applied:
`discount` and `shipping_cost` default to 0, `payment_method` to `"cod"`). -/
structure CreateOrderReq where
  billing_address_id : Option Nat
  shipping_address_id : Option Nat
  guest_email : Option String
  guest_phone : Option String
  guest_billing_address : Option GuestAddress
  guest_shipping_address : Option GuestAddress
  discount : Int
  shipping_cost : Int
  notes : String
  payment_method : String
deriving Repr, DecidableEq

/-- `CreateOrderSerializer.validate`: authenticated users need an id or
guest-style payload for each address; guests need both guest payloads.
(`data.get('billing_address_id')` is a Python truthiness test, so id 0
counts as absent.) -/
def validReq (actor : Actor) (req : CreateOrderReq) : Bool :=
  match actor with
  | .user _ =>
      (req.billing_address_id.getD 0 != 0 || req.guest_billing_address.isSome) &&
      (req.shipping_address_id.getD 0 != 0 || req.guest_shipping_address.isSome)
  | .guest _ =>
      req.guest_billing_address.isSome && req.guest_shipping_address.isSome

/-- The error outcomes of `CreateOrderView.post`.
`insufficientStockAttributeError` records that the stock-validation branch,
when taken, evaluates `item.get_display_name()` - a method `CartItem` does
not define (it defines `get_display_title`) - so the request dies with an
`AttributeError` (generic 500) instead of the intended
"Insufficient stock for {name}. Only {stock} available." message. -/
inductive CreateOrderErr where
  | invalidData
  | cartNotFound
  | cartEmpty
  | insufficientStockAttributeError (item_id : Nat)
  | addressNotFound (ty : AddrType)
  | addressRequired (ty : AddrType)
deriving Repr, DecidableEq

/-- `CreateOrderView._get_cart` / `CancelOrderView`'s order scoping:
authenticated → by user; guest → by session key (none when no session). -/
def findCart (db : Db) (actor : Actor) : Option Cart :=
  match actor with
  | .user uid => db.carts.find? (fun c => c.user_id == some uid)
  | .guest none => none
  | .guest (some sk) =>
      db.carts.find? (fun c => c.session_key == some sk && c.user_id == none)

/-- `CreateOrderView._get_or_create_address`: use the caller's own address
row when a (truthy) id is supplied, else materialize an `Address` from the
guest-style payload (never marked default), else `ValueError`. -/
def getOrCreateAddress (db : Db) (uid : Nat) (aid? : Option Nat)
    (g? : Option GuestAddress) (ty : AddrType) :
    Except CreateOrderErr (Db × Address) :=
  if aid?.getD 0 != 0 then
    match db.addresses.find? (fun a => a.id == aid?.getD 0 && a.user_id == some uid) with
    | some a => .ok (db, a)
    | none => .error (.addressNotFound ty)
  else
    match g? with
    | some g =>
        let a : Address :=
          { id := db.nextAddressId
            user_id := some uid
            address_type := ty
            label := g.label
            phone := g.phone
            street := g.street
            city := g.city
            state := g.state
            postal_code := g.postal_code
            country := g.country
            is_default_billing := false
            is_default_shipping := false }
        .ok ({ db with addresses := db.addresses ++ [a],
                       nextAddressId := db.nextAddressId + 1 }, a)
    | none => .error (.addressRequired ty)

/-- `city.strip().lower()`: drop leading/trailing whitespace, lowercase.
Implemented over the character list (structurally recursive) so concrete
cities evaluate inside proofs. -/
def normalizeCity (s : String) : String :=
  ⟨(((s.data.dropWhile Char.isWhitespace).reverse.dropWhile
      Char.isWhitespace).reverse).map Char.toLower⟩

/-- `_calculate_shipping_cost_from_address` / `_from_data`:
Dhaka: 60, outside Dhaka: 120. -/
def calcShippingFromCity (city : String) : Int :=
  if normalizeCity city == "dhaka" then 60 else 120

/-- The shipping-cost selection block of `CreateOrderView.post`. -/
def selectShippingCost (provided : Int) (shippingAddr : Option Address)
    (guestShipping : Option GuestAddress) : Int :=
  if provided > 0 then provided
  else
    match shippingAddr with
    | some a => calcShippingFromCity a.city
    | none =>
        match guestShipping with
        | some g => calcShippingFromCity g.city
        | none => 120

/-- The `OrderItem.objects.create(...)` call in the order-items loop of
`CreateOrderView.post`: here `product` falls back from `cart_item.product`
to `cart_item.variant.product`. -/
def createOrderItemRow (d : Db) (oid : Nat) (it : CartItem) : OrderItem :=
  { order_id := oid
    product_id :=
      match it.product_id with
      | some p => some p
      | none => (it.variantObj d).map ProductVariant.product_id
    variant_id := it.variant_id
    product_title := it.product_title
    variant_sku := it.variant_sku
    variant_attributes := it.variant_attributes
    quantity := it.quantity
    unit_price := it.price_snapshot
    subtotal := it.get_total }

/-- The per-item body of the order-items loop in `CreateOrderView.post`:
create the `OrderItem` snapshot, then decrement the stock of the variant,
else of the product. -/
def createOrderProcessItem (oid : Nat) (d : Db) (it : CartItem) : Db :=
  match it.variantObj d with
  | some v =>
      { d with
        orderItems := d.orderItems ++ [createOrderItemRow d oid it]
        variants := d.variants.map (fun w =>
          if w.id == v.id then { w with stock := w.stock - (it.quantity : Int) } else w) }
  | none =>
      match it.productObj d with
      | some p =>
          { d with
            orderItems := d.orderItems ++ [createOrderItemRow d oid it]
            products := d.products.map (fun q =>
              if q.id == p.id then { q with stock := q.stock - (it.quantity : Int) } else q) }
      | none => { d with orderItems := d.orderItems ++ [createOrderItemRow d oid it] }

/-- Address resolution of `CreateOrderView.post`: authenticated users get
`Address` rows (billing first, then shipping, both inside the transaction);
guests keep the raw payloads on the order. -/
def resolveAddresses (db : Db) (actor : Actor) (req : CreateOrderReq) :
    Except CreateOrderErr
      (Db × Option Address × Option Address × Option GuestAddress × Option GuestAddress) :=
  match actor with
  | .user uid => do
      let (db1, bill) ← getOrCreateAddress db uid
        req.billing_address_id req.guest_billing_address AddrType.billing
      let (db2, ship) ← getOrCreateAddress db1 uid
        req.shipping_address_id req.guest_shipping_address AddrType.shipping
      .ok (db2, some bill, some ship, none, none)
  | .guest _ =>
      .ok (db, none, none, req.guest_billing_address, req.guest_shipping_address)

/-- The body of `with transaction.atomic():` in `CreateOrderView.post`
after address resolution: shipping cost, totals, order row, per-item
snapshot + stock decrement (the loop re-queries `cart.items.all()`),
payment row, cart clearing. -/
def createOrderCommit (db1 : Db) (cart : Cart) (actor : Actor)
    (req : CreateOrderReq) (billing shipping : Option Address)
    (gBill gShip : Option GuestAddress) : Db × Order :=
  let shipping_cost := selectShippingCost req.shipping_cost shipping gShip
  let subtotal := Cart.get_subtotal db1 cart.id
  let discount := req.discount
  let total_price := subtotal - discount + shipping_cost
  let (db2, o) := orderCreateRow db1
    (match actor with | .user u => some u | .guest _ => none)
    (match actor with | .user _ => none | .guest _ => cart.session_key)
    (billing.map Address.id) (shipping.map Address.id)
    req.guest_email req.guest_phone gBill gShip
    subtotal discount shipping_cost total_price
  let db3 := (cartItemsOf db1 cart.id).foldl (createOrderProcessItem o.id) db2
  let db4 := { db3 with payments := db3.payments ++
    [({ order_id := o.id
        method := req.payment_method
        amount := total_price
        success := false } : Payment)] }
  let db5 := { db4 with
    cartItems := db4.cartItems.filter (fun it => it.cart_id != cart.id) }
  (db5, o)

/-- `CreateOrderView.post`.  Serializer validation, cart lookup, emptiness
check and the stock-validation loop happen before the transaction; the
transaction body (address resolution followed by `createOrderCommit`)
either commits as a whole or leaves the database untouched. -/
def createOrder (db : Db) (actor : Actor) (req : CreateOrderReq) :
    Db × Except CreateOrderErr Order :=
  if !validReq actor req then (db, .error .invalidData)
  else
    match findCart db actor with
    | none => (db, .error .cartNotFound)
    | some cart =>
      if (cartItemsOf db cart.id).isEmpty then (db, .error .cartEmpty)
      else
        match (cartItemsOf db cart.id).find?
            (fun it => (it.quantity : Int) > it.get_stock db) with
        | some bad => (db, .error (.insufficientStockAttributeError bad.id))
        | none =>
          match resolveAddresses db actor req with
          | .error e => (db, .error e)
          | .ok (db1, billing, shipping, gBill, gShip) =>
            ((createOrderCommit db1 cart actor req billing shipping gBill gShip).1,
             .ok (createOrderCommit db1 cart actor req billing shipping gBill gShip).2)

/-- The error outcomes of `CancelOrderView.patch`. -/
inductive CancelErr where
  | notFound
  | cannotCancelInStatus (st : OrderStatus)
  | cannotCancelPaid
deriving Repr, DecidableEq

/-- Order lookup of `CancelOrderView.patch`, scoped to the requesting actor. -/
def findOrder (db : Db) (actor : Actor) (number : String) : Option Order :=
  match actor with
  | .user uid =>
      db.orders.find? (fun o => o.order_number == number && o.user_id == some uid)
  | .guest none => none
  | .guest (some sk) =>
      db.orders.find? (fun o =>
        o.order_number == number && o.session_key == some sk && o.user_id == none)

/-- `order.items.all()`. -/
def orderItemsOf (db : Db) (oid : Nat) : List OrderItem :=
  db.orderItems.filter (fun it => it.order_id == oid)

/-- Dereference `order_item.variant`. -/
def OrderItem.variantObj (db : Db) (it : OrderItem) : Option ProductVariant :=
  it.variant_id.bind (findVariant db)

/-- Dereference `order_item.product`. -/
def OrderItem.productObj (db : Db) (it : OrderItem) : Option Product :=
  it.product_id.bind (findProduct db)

/-- The per-item body of the stock-restore loop in `CancelOrderView.patch`. -/
def cancelRestoreItem (d : Db) (it : OrderItem) : Db :=
  match it.variantObj d with
  | some v =>
      { d with variants := d.variants.map (fun w =>
          if w.id == v.id then { w with stock := w.stock + (it.quantity : Int) } else w) }
  | none =>
      match it.productObj d with
      | some p =>
          { d with products := d.products.map (fun q =>
              if q.id == p.id then { q with stock := q.stock + (it.quantity : Int) } else q) }
      | none => d

/-- `CancelOrderView.patch`: reject terminal statuses and paid orders;
otherwise restore stock for every item and set
`status=cancelled, payment_status=failed`. -/
def cancelOrder (db : Db) (actor : Actor) (number : String) :
    Db × Except CancelErr Order :=
  match findOrder db actor number with
  | none => (db, .error .notFound)
  | some o =>
    if o.status == .shipped || o.status == .delivered || o.status == .cancelled then
      (db, .error (.cannotCancelInStatus o.status))
    else if o.payment_status == .paid then
      (db, .error .cannotCancelPaid)
    else
      ({ (orderItemsOf db o.id).foldl cancelRestoreItem db with
         orders := ((orderItemsOf db o.id).foldl cancelRestoreItem db).orders.map
           (fun x => if x.id == o.id then
              { o with status := OrderStatus.cancelled,
                       payment_status := PayStatus.failed } else x) },
       .ok { o with status := OrderStatus.cancelled,
                    payment_status := PayStatus.failed })

/-!
## Spec-side definition used for the savings refinement comparison
-/

/-- Modelled from the spec: "`total_savings == Σ max(0, list_price −
effective_price) × quantity`", where the effective price is the sale price
when set and the list price otherwise.  This follows the spec's words and is
compared against the source-derived `CartItem.get_savings`. -/
def CartItem.spec_savings (db : Db) (it : CartItem) : Int :=
  match it.variantObj db with
  | some v => max 0 (v.price - v.get_effective_price) * (it.quantity : Int)
  | none =>
      match it.productObj db with
      | some p =>
          match p.sale_price with
          | some sp => max 0 (p.price - sp) * (it.quantity : Int)
          | none => 0
      | none => 0

/-- Spec-side total savings: sum of the clamped per-item savings. -/
def Cart.spec_total_savings (db : Db) (cid : Nat) : Int :=
  ((cartItemsOf db cid).map (CartItem.spec_savings db)).sum

/-!
## Concrete fixtures used by counterexamples and witnesses
-/

/-- A plain product: 100 with no sale price, 10 in stock. -/
def prodHelmet : Product := ⟨1, "Helmet", 100, none, 10, true⟩

/-- A product whose admin-entered sale price (150) exceeds its list price
(100); the model layer does not forbid this. -/
def prodGloves : Product := ⟨2, "Gloves", 100, some 150, 5, true⟩

/-- A variant of `prodHelmet`: list 100, sale 80, stock 5. -/
def varRed : ProductVariant := ⟨1, 1, "V1", 100, some 80, 5, true, "Red"⟩

/-- A guest cart keyed by session "s". -/
def cartGuest : Cart := ⟨1, none, some "s"⟩

/-- Cart item: 3 × `varRed` at snapshot price 80. -/
def itemRed3 : CartItem := ⟨1, 1, some 1, none, "V1", "Helmet", "Red", 3, 80⟩

/-- Cart item asking for 6 units of `varRed` (stock 5). -/
def itemRed6 : CartItem := ⟨1, 1, some 1, none, "V1", "Helmet", "Red", 6, 80⟩

/-- Cart item: 1 × `prodGloves` (sale price above list price). -/
def itemGloves : CartItem := ⟨2, 2, none, some 2, "PROD-2", "Gloves", "", 1, 100⟩

/-- Store with the guest cart holding 3 × `varRed`. -/
def dbGuestCart : Db := ⟨[prodHelmet, prodGloves], [varRed], [], [cartGuest], [itemRed3], [], [], [], 1, 1⟩

/-- Store whose cart 2 holds the mispriced `itemGloves`. -/
def dbGlovesCart : Db := ⟨[prodHelmet, prodGloves], [varRed], [], [⟨2, none, some "t"⟩], [itemGloves], [], [], [], 1, 1⟩

/-- Store with the guest cart asking for more `varRed` than its stock. -/
def dbOverask : Db := ⟨[prodHelmet, prodGloves], [varRed], [], [cartGuest], [itemRed6], [], [], [], 1, 1⟩

/-- A guest checkout payload whose city needs trimming and lowercasing. -/
def gaDhaka : GuestAddress := ⟨"Guest Address", "018", "1 Road", " Dhaka ", "Dhaka", "1200", "Bangladesh"⟩

/-- A guest checkout request for the Dhaka address with no explicit
shipping cost and no discount. -/
def reqDhaka : CreateOrderReq := ⟨none, none, some "a@b.c", some "018", some gaDhaka, some gaDhaka, 0, 0, "", "cod"⟩

/-- An empty store. -/
def dbEmpty : Db := ⟨[], [], [], [], [], [], [], [], 1, 1⟩

/-- First order created in the empty store. -/
def demoCreate1 : Db × Order := orderCreateRow dbEmpty none none none none none none none none 0 0 0 0

/-- Second order, created after the first. -/
def demoCreate2 : Db × Order := orderCreateRow demoCreate1.1 none none none none none none none none 0 0 0 0

/-- Third order, created after the second one was deleted. -/
def demoCreate3 : Db × Order := orderCreateRow (deleteOrder demoCreate2.1 demoCreate2.2.id) none none none none none none none none 0 0 0 0

/-- Guest cart item: 2 × product 1, no variant. -/
def guestProdItem : CartItem := ⟨10, 9, none, some 1, "PROD-1", "Helmet", "", 2, 100⟩

/-- User cart item: 3 × product 2, no variant. -/
def userProdItem : CartItem := ⟨11, 8, none, some 2, "PROD-2", "Gloves", "", 3, 100⟩

/-- A shipping-type address carrying the default-billing flag. -/
def addrShipWithBillFlag : Address := ⟨1, some 1, .shipping, "Home", "018", "st", "Dhaka", "Dhaka", "1200", "BD", true, false⟩

/-- A billing-type address carrying the default-billing flag. -/
def addrBillDefault : Address := ⟨2, some 1, .billing, "Office", "018", "st", "Dhaka", "Dhaka", "1200", "BD", true, false⟩

/-!
## Theorems
-/

instance {ε α : Type} [DecidableEq ε] [DecidableEq α] : DecidableEq (Except ε α)
  | .ok a, .ok b => decidable_of_iff (a = b) (by simp)
  | .error e, .error f => decidable_of_iff (e = f) (by simp)
  | .ok _, .error _ => isFalse (by simp)
  | .error _, .ok _ => isFalse (by simp)

/-- Claim C5, counterexample: `CartItem.get_savings` does not clamp at zero.
With a product whose sale price (150) exceeds its list price (100), the
item's savings is −50 — negative — and the cart's total savings (−50)
differs from the spec's `Σ max(0, list − effective) × quantity` (0). -/
theorem get_savings_negative_on_inverted_sale :
    CartItem.get_savings dbGlovesCart itemGloves = -50 ∧
    CartItem.get_savings dbGlovesCart itemGloves < 0 ∧
    Cart.get_total_savings dbGlovesCart 2 = -50 ∧
    Cart.spec_total_savings dbGlovesCart 2 = 0 := by
  decide

/-- Claim C6, counterexample: saving a shipping-type address that carries
`is_default_billing=true` and then a billing-type default-billing address
leaves the user with two addresses flagged as default billing — the unset
step only clears rows whose `address_type` is the literal `'billing'`, and
the conditional unique constraints key on `(user, address_type)`, so the two
rows coexist. -/
theorem addressSave_two_default_billing :
    (((addressSave (addressSave [] addrShipWithBillFlag) addrBillDefault).filter
        (fun b => b.user_id == some 1 && b.is_default_billing)).length = 2) := by
  decide

/-- Claim C7, counterexample: `_merge_carts` matches guest items against the
user cart by the `variant` foreign key alone, and `filter(variant=None)`
matches any variant-less row.  Merging a guest item for product 1 (qty 2)
into a user cart holding only product 2 (qty 3) adds the quantity to the
product-2 item (qty 5) and the product-1 item disappears with the guest
cart, instead of being reassigned unchanged. -/
theorem mergeCarts_wrong_product_absorbs_quantity :
    mergeCarts ⟨[userProdItem], some [guestProdItem]⟩ =
      ⟨[{ userProdItem with quantity := 5 }], none⟩ ∧
    ((mergeCarts ⟨[userProdItem], some [guestProdItem]⟩).userItems.filter
        (fun it => it.product_id == some 1)) = [] := by
  decide

/-- Claim C8: when a cart item's quantity exceeds the available stock, the
view's error branch evaluates `item.get_display_name()` — a method
`CartItem` does not define (the model offers `get_display_title`) — so the
request aborts with an `AttributeError` (a generic 500) and never produces
the "Insufficient stock for {name}. Only {stock} available." message.  The
database is left untouched.  The second conjunct shows the display title the
message was meant to carry is computable via the method that does exist. -/
theorem createOrder_insufficient_stock_attribute_error :
    createOrder dbOverask (.guest (some "s")) reqDhaka =
      (dbOverask, .error (.insufficientStockAttributeError 1)) ∧
    CartItem.get_display_title dbOverask itemRed6 = "Helmet (Red)" := by
  decide

/-- Claim C9, counterexample: order numbers are reused after a deletion.
Create two orders (numbers ORD-1, ORD-2), delete the second, create a third:
`max(id) + 1` evaluates to 2 again, so the third (distinct) order receives
the already-used number ORD-2. -/
theorem order_number_reused_after_delete :
    demoCreate2.2.order_number = "ORD-2" ∧
    demoCreate3.2.order_number = "ORD-2" ∧
    demoCreate2.2.id ≠ demoCreate3.2.id := by
  decide

/-- Claim C10: for a non-empty cart, the model-level `Order.create_from_cart`
creates the order and one snapshot `OrderItem` per cart item (title, sku,
attributes, quantity, unit price, line subtotal) and empties the cart, while
leaving every product and variant stock unchanged, creating no `Payment`
row, and imposing no stock validation (the conclusion needs no hypothesis
about stock levels). -/
theorem orderCreateFromCart_frame (db : Db) (cart : Cart)
    (ba sa : Option Nat) (discount shipping_cost : Int)
    (hne : cartItemsOf db cart.id ≠ []) :
    (orderCreateFromCart db cart ba sa discount shipping_cost).1.products = db.products ∧
    (orderCreateFromCart db cart ba sa discount shipping_cost).1.variants = db.variants ∧
    (orderCreateFromCart db cart ba sa discount shipping_cost).1.payments = db.payments ∧
    cartItemsOf (orderCreateFromCart db cart ba sa discount shipping_cost).1 cart.id = [] ∧
    (orderCreateFromCart db cart ba sa discount shipping_cost).1.orders =
      db.orders ++ [(orderCreateFromCart db cart ba sa discount shipping_cost).2] ∧
    (orderCreateFromCart db cart ba sa discount shipping_cost).1.orderItems =
      db.orderItems ++ (cartItemsOf db cart.id).map
        (createFromCartItemRow db (orderCreateFromCart db cart ba sa discount shipping_cost).2.id) ∧
    (orderCreateFromCart db cart ba sa discount shipping_cost).2.subtotal =
      Cart.get_subtotal db cart.id ∧
    (orderCreateFromCart db cart ba sa discount shipping_cost).2.total_price =
      Cart.get_subtotal db cart.id - discount + shipping_cost := by
  refine ⟨rfl, rfl, rfl, ?_, rfl, rfl, rfl, rfl⟩
  simp only [orderCreateFromCart, cartItemsOf, orderCreateRow]
  rw [List.filter_filter]
  refine List.filter_eq_nil_iff.mpr ?_
  intro a _
  cases h : a.cart_id == cart.id
  · simp [h]
  · simp [h]
    exact eq_of_beq h

/-- Witness for `orderCreateFromCart_frame`: a cart whose single item asks
for 6 units while the variant stock is 5 — the operation still goes through
(no stock validation) and no stock changes. -/
theorem orderCreateFromCart_frame_witness :
    cartItemsOf dbOverask cartGuest.id ≠ [] ∧
    (orderCreateFromCart dbOverask cartGuest none none 0 0).1.variants = dbOverask.variants ∧
    (orderCreateFromCart dbOverask cartGuest none none 0 0).1.payments = dbOverask.payments :=
  ⟨by decide,
   (orderCreateFromCart_frame dbOverask cartGuest none none 0 0 (by decide)).2.1,
   (orderCreateFromCart_frame dbOverask cartGuest none none 0 0 (by decide)).2.2.1⟩

/-- Claim C1: if some item of the actor's cart asks for more than the
current stock of its target, order creation aborts and the database is
byte-for-byte unchanged: no `Order` row, no `OrderItem`s, no `Payment`, no
stock mutation, and the cart with its items untouched. -/
theorem createOrder_stock_failure_state_unchanged
    (db : Db) (actor : Actor) (req : CreateOrderReq) (cart : Cart) (it : CartItem)
    (hcart : findCart db actor = some cart)
    (hit : it ∈ cartItemsOf db cart.id)
    (hq : (it.quantity : Int) > it.get_stock db) :
    (createOrder db actor req).1 = db ∧
    ∃ e, (createOrder db actor req).2 = Except.error e := by
  unfold createOrder
  cases hv : validReq actor req
  · simp [hv]
  · have hne : (cartItemsOf db cart.id).isEmpty = false := by
      cases hl : cartItemsOf db cart.id
      · rw [hl] at hit; cases hit
      · rfl
    have hfind : ((cartItemsOf db cart.id).find?
        (fun x => (x.quantity : Int) > x.get_stock db)).isSome := by
      rw [List.find?_isSome]
      exact ⟨it, hit, by simpa using hq⟩
    obtain ⟨bad, hbad⟩ := Option.isSome_iff_exists.mp hfind
    simp [hv, hcart, hne, hbad]

/-- Witness for `createOrder_stock_failure_state_unchanged`: the guest cart
asking for 6 units of a variant with stock 5. -/
theorem createOrder_stock_failure_state_unchanged_witness :
    findCart dbOverask (.guest (some "s")) = some cartGuest ∧
    itemRed6 ∈ cartItemsOf dbOverask cartGuest.id ∧
    (itemRed6.quantity : Int) > itemRed6.get_stock dbOverask ∧
    ((createOrder dbOverask (.guest (some "s")) reqDhaka).1 = dbOverask ∧
      ∃ e, (createOrder dbOverask (.guest (some "s")) reqDhaka).2 = Except.error e) :=
  ⟨by decide, by decide, by decide,
   createOrder_stock_failure_state_unchanged dbOverask (.guest (some "s")) reqDhaka
     cartGuest itemRed6 (by decide) (by decide) (by decide)⟩

/-- Well-formedness of the order table under a single writer: the
auto-increment counter is positive and ahead of every row, and every
generated number is bounded by its row's id. -/
def ordersWf (db : Db) : Prop :=
  0 < db.nextOrderId ∧
  ∀ o ∈ db.orders, o.order_seq ≤ o.id ∧ o.id < db.nextOrderId

theorem le_foldrMaxId_of_mem {l : List Order} {o : Order} (h : o ∈ l) :
    o.id ≤ l.foldr (fun o m => max o.id m) 0 := by
  induction l with
  | nil => cases h
  | cons x xs ih =>
    rcases List.mem_cons.mp h with h | h
    · subst h; exact le_max_left _ _
    · exact le_trans (ih h) (le_max_right _ _)

theorem foldrMaxId_lt {l : List Order} {n : Nat} (h0 : 0 < n)
    (h : ∀ o ∈ l, o.id < n) :
    l.foldr (fun o m => max o.id m) 0 < n := by
  induction l with
  | nil => simpa
  | cons x xs ih =>
    simp only [List.foldr_cons]
    exact max_lt (h x (by simp)) (ih (fun o ho => h o (by simp [ho])))

theorem le_maxOrderId_of_mem {db : Db} {o : Order} (h : o ∈ db.orders) :
    o.id ≤ maxOrderId db :=
  le_foldrMaxId_of_mem h

theorem maxOrderId_lt_next {db : Db} (wf : ordersWf db) :
    maxOrderId db < db.nextOrderId :=
  foldrMaxId_lt wf.1 (fun o ho => (wf.2 o ho).2)

/-- Claim C9, amended: a freshly created order (no preset number) gets
`order_number = "ORD-" ++ (max existing id + 1)`; under a single writer this
number is strictly greater than the number of every order existing at
creation time (so numbers of coexisting orders are unique and creation-time
monotone), and the well-formedness survives both creation and deletion.
(Without the "no deletion" restriction reuse is possible — see
`order_number_reused_after_delete`.) -/
theorem orderCreateRow_number_fresh_monotone
    (db : Db) (uid : Option Nat) (sk : Option String) (ba sa : Option Nat)
    (ge gp : Option String) (gb gs : Option GuestAddress)
    (st di sc tp : Int) (delId : Nat)
    (wf : ordersWf db) :
    (orderCreateRow db uid sk ba sa ge gp gb gs st di sc tp).2.order_seq =
      maxOrderId db + 1 ∧
    (orderCreateRow db uid sk ba sa ge gp gb gs st di sc tp).2.order_number =
      "ORD-" ++ toString (maxOrderId db + 1) ∧
    (∀ o ∈ db.orders,
      o.order_seq < (orderCreateRow db uid sk ba sa ge gp gb gs st di sc tp).2.order_seq) ∧
    ordersWf (orderCreateRow db uid sk ba sa ge gp gb gs st di sc tp).1 ∧
    ordersWf (deleteOrder db delId) := by
  refine ⟨rfl, rfl, ?_, ?_, ?_⟩
  · intro o ho
    have h1 : o.order_seq ≤ o.id := (wf.2 o ho).1
    have h2 : o.id ≤ maxOrderId db := le_maxOrderId_of_mem ho
    show o.order_seq < nextOrderSeq db
    unfold nextOrderSeq
    omega
  · constructor
    · exact Nat.lt_succ_of_lt wf.1
    · intro o ho
      rcases List.mem_append.mp ho with h | h
      · exact ⟨(wf.2 o h).1, Nat.lt_succ_of_lt (wf.2 o h).2⟩
      · have : o = (orderCreateRow db uid sk ba sa ge gp gb gs st di sc tp).2 :=
          List.mem_singleton.mp h
        subst this
        refine ⟨?_, Nat.lt_succ_self _⟩
        show nextOrderSeq db ≤ db.nextOrderId
        have := maxOrderId_lt_next wf
        unfold nextOrderSeq
        omega
  · exact ⟨wf.1, fun o ho => wf.2 o (List.mem_of_mem_filter ho)⟩

/-- Witness for `orderCreateRow_number_fresh_monotone` on the empty store. -/
theorem orderCreateRow_number_fresh_monotone_witness :
    ordersWf dbEmpty ∧
    (orderCreateRow dbEmpty none none none none none none none none 0 0 0 0).2.order_seq =
      maxOrderId dbEmpty + 1 :=
  ⟨⟨Nat.one_pos, fun o ho => by cases ho⟩,
   (orderCreateRow_number_fresh_monotone dbEmpty none none none none none none
      none none 0 0 0 0 0 ⟨Nat.one_pos, fun o ho => by cases ho⟩).1⟩

/-- The catalog invariant the dashboard forms enforce ("Sale price must be
less than regular price", with the `MinValueValidator(0)` floor): a set sale
price is positive and at most the list price. -/
def productSaleOk (p : Product) : Bool :=
  match p.sale_price with
  | some sp => decide (0 < sp) && decide (sp ≤ p.price)
  | none => true

/-- Same invariant for variants. -/
def variantSaleOk (v : ProductVariant) : Bool :=
  match v.sale_price with
  | some sp => decide (0 < sp) && decide (sp ≤ v.price)
  | none => true

theorem mem_of_variantObj {db : Db} {it : CartItem} {v : ProductVariant}
    (h : it.variantObj db = some v) : v ∈ db.variants := by
  unfold CartItem.variantObj at h
  cases hv : it.variant_id with
  | none => rw [hv] at h; cases h
  | some vid =>
      rw [hv] at h
      exact List.mem_of_find?_eq_some h

theorem mem_of_productObj {db : Db} {it : CartItem} {p : Product}
    (h : it.productObj db = some p) : p ∈ db.products := by
  unfold CartItem.productObj at h
  cases hp : it.product_id with
  | none => rw [hp] at h; cases h
  | some pid =>
      rw [hp] at h
      exact List.mem_of_find?_eq_some h

theorem variant_id_isSome_of_variantObj {db : Db} {it : CartItem}
    {v : ProductVariant} (h : it.variantObj db = some v) :
    it.variant_id.isSome := by
  unfold CartItem.variantObj at h
  cases hv : it.variant_id with
  | none => rw [hv] at h; cases h
  | some vid => rfl

theorem get_savings_item_spec (db : Db) (it : CartItem)
    (hp : ∀ p ∈ db.products, productSaleOk p = true)
    (hv : ∀ v ∈ db.variants, variantSaleOk v = true)
    (hone : it.variant_id = none ∨ it.product_id = none) :
    CartItem.get_savings db it = CartItem.spec_savings db it ∧
    0 ≤ CartItem.get_savings db it := by
  cases hvo : it.variantObj db with
  | some v =>
    have hinv := hv v (mem_of_variantObj hvo)
    unfold variantSaleOk at hinv
    cases hsp : v.sale_price with
    | some sp =>
      rw [hsp] at hinv
      simp only [Bool.and_eq_true, decide_eq_true_eq] at hinv
      have e1 : CartItem.get_savings db it = (v.price - sp) * (it.quantity : Int) := by
        unfold CartItem.get_savings
        rw [hvo]
        simp [hsp]
      have e2 : CartItem.spec_savings db it =
          max 0 (v.price - sp) * (it.quantity : Int) := by
        unfold CartItem.spec_savings ProductVariant.get_effective_price
        rw [hvo]
        simp [hsp]
      have hmax : max 0 (v.price - sp) = v.price - sp := max_eq_right (by omega)
      rw [e1, e2, hmax]
      exact ⟨rfl, mul_nonneg (by omega) (Int.natCast_nonneg _)⟩
    | none =>
      have hpid : it.product_id = none := by
        rcases hone with h | h
        · have := variant_id_isSome_of_variantObj hvo
          rw [h] at this; cases this
        · exact h
      have hpo : it.productObj db = none := by
        unfold CartItem.productObj
        rw [hpid]
        rfl
      have e1 : CartItem.get_savings db it = 0 := by
        unfold CartItem.get_savings
        rw [hvo]
        simp [hsp, hpo, productBranchSavings]
      have e2 : CartItem.spec_savings db it = 0 := by
        unfold CartItem.spec_savings ProductVariant.get_effective_price
        rw [hvo]
        simp [hsp]
      rw [e1, e2]
      exact ⟨rfl, le_refl 0⟩
  | none =>
    have eg : CartItem.get_savings db it =
        productBranchSavings (it.productObj db) it.quantity := by
      unfold CartItem.get_savings
      rw [hvo]
    cases hpo : it.productObj db with
    | none =>
      have e2 : CartItem.spec_savings db it = 0 := by
        unfold CartItem.spec_savings
        rw [hvo, hpo]
      rw [eg, hpo, e2]
      exact ⟨rfl, le_refl 0⟩
    | some p =>
      have hinv := hp p (mem_of_productObj hpo)
      unfold productSaleOk at hinv
      cases hsp : p.sale_price with
      | some sp =>
        rw [hsp] at hinv
        simp only [Bool.and_eq_true, decide_eq_true_eq] at hinv
        have hne : (sp == 0) = false := by
          simp only [beq_eq_false_iff_ne, ne_eq]
          omega
        have e1 : productBranchSavings (it.productObj db) it.quantity =
            (p.price - sp) * (it.quantity : Int) := by
          rw [hpo]
          simp [productBranchSavings, hsp, hne]
        have e2 : CartItem.spec_savings db it =
            max 0 (p.price - sp) * (it.quantity : Int) := by
          unfold CartItem.spec_savings
          rw [hvo, hpo]
          simp [hsp]
        have hmax : max 0 (p.price - sp) = p.price - sp := max_eq_right (by omega)
        rw [eg, e1, e2, hmax]
        exact ⟨rfl, mul_nonneg (by omega) (Int.natCast_nonneg _)⟩
      | none =>
        have e1 : productBranchSavings (it.productObj db) it.quantity = 0 := by
          rw [hpo]
          simp [productBranchSavings, hsp]
        have e2 : CartItem.spec_savings db it = 0 := by
          unfold CartItem.spec_savings
          rw [hvo, hpo]
          simp [hsp]
        rw [eg, e1, e2]
        exact ⟨rfl, le_refl 0⟩

/-- Claim C5, amended: under the catalog invariant that a set sale price
satisfies `0 < sale ≤ list` (which the dashboard forms enforce but the model
layer does not), every cart's total savings equals the spec's
`Σ max(0, list − effective) × quantity` and is nonnegative.  Without that
invariant the savings of an item is `(list − sale) × quantity` unclamped and
can be negative — see `get_savings_negative_on_inverted_sale`. -/
theorem total_savings_spec_under_sale_invariant (db : Db) (cid : Nat)
    (hp : ∀ p ∈ db.products, productSaleOk p = true)
    (hv : ∀ v ∈ db.variants, variantSaleOk v = true)
    (hone : ∀ it ∈ db.cartItems, it.variant_id = none ∨ it.product_id = none) :
    Cart.get_total_savings db cid = Cart.spec_total_savings db cid ∧
    0 ≤ Cart.get_total_savings db cid := by
  unfold Cart.get_total_savings Cart.spec_total_savings
  constructor
  · refine congrArg List.sum (List.map_congr_left ?_)
    intro it hit
    exact (get_savings_item_spec db it hp hv
      (hone it (List.mem_of_mem_filter hit))).1
  · refine List.sum_nonneg ?_
    intro x hx
    obtain ⟨it, hit, rfl⟩ := List.mem_map.mp hx
    exact (get_savings_item_spec db it hp hv
      (hone it (List.mem_of_mem_filter hit))).2

/-- Store satisfying the sale-price invariant: only `prodHelmet` and
`varRed`, with the guest cart holding 3 × `varRed`. -/
def dbSaleOk : Db := ⟨[prodHelmet], [varRed], [], [cartGuest], [itemRed3], [], [], [], 1, 1⟩

/-- Witness for `total_savings_spec_under_sale_invariant`: the cart with
3 × `varRed` (list 100, sale 80) has total savings 60 under the invariant. -/
theorem total_savings_spec_under_sale_invariant_witness :
    (∀ p ∈ dbSaleOk.products, productSaleOk p = true) ∧
    (Cart.get_total_savings dbSaleOk 1 = Cart.spec_total_savings dbSaleOk 1 ∧
      0 ≤ Cart.get_total_savings dbSaleOk 1) ∧
    Cart.get_total_savings dbSaleOk 1 = 60 := by
  refine ⟨by decide, ?_, by decide⟩
  exact total_savings_spec_under_sale_invariant dbSaleOk 1
    (by decide) (by decide) (by decide)

/-- Total quantity a list of cart items holds for variant `v`. -/
def variantQty (its : List CartItem) (v : Nat) : Nat :=
  ((its.filter (fun it => it.variant_id == some v)).map CartItem.quantity).sum

theorem variantQty_nil (v : Nat) : variantQty [] v = 0 := rfl

theorem variantQty_cons (x : CartItem) (l : List CartItem) (v : Nat) :
    variantQty (x :: l) v =
      (if x.variant_id == some v then x.quantity else 0) + variantQty l v := by
  unfold variantQty
  cases h : x.variant_id == some v <;> simp [List.filter_cons, h]

theorem variantQty_mergeStep (us : List CartItem) (g : CartItem) (v : Nat) :
    variantQty (mergeStep us g) v =
      variantQty us v + (if g.variant_id == some v then g.quantity else 0) := by
  induction us with
  | nil =>
    unfold mergeStep
    rw [variantQty_cons, variantQty_nil]
    omega
  | cons u rest ih =>
    unfold mergeStep
    cases hm : u.variant_id == g.variant_id
    · simp only [Bool.false_eq_true, if_false]
      rw [variantQty_cons, variantQty_cons, ih]
      omega
    · simp only [if_true]
      have huv : u.variant_id = g.variant_id := eq_of_beq hm
      rw [variantQty_cons, variantQty_cons]
      have hproj : ({ u with quantity := u.quantity + g.quantity } : CartItem).variant_id
          = u.variant_id := rfl
      rw [hproj, huv]
      cases hgv : g.variant_id == some v
      · simp [hgv]
      · simp only [hgv, if_true]
        omega

theorem variantQty_mergeFold (gs us : List CartItem) (v : Nat) :
    variantQty (gs.foldl mergeStep us) v = variantQty us v + variantQty gs v := by
  induction gs generalizing us with
  | nil =>
    rw [List.foldl_nil, variantQty_nil]
    omega
  | cons g rest ih =>
    rw [List.foldl_cons, ih, variantQty_mergeStep, variantQty_cons]
    omega

theorem mergeStep_filter_length (us : List CartItem) (g : CartItem) (v : Nat) :
    ((mergeStep us g).filter (fun it => it.variant_id == some v)).length =
      (us.filter (fun it => it.variant_id == some v)).length +
      (if g.variant_id == some v &&
          us.all (fun u => !(u.variant_id == g.variant_id)) then 1 else 0) := by
  induction us with
  | nil =>
    unfold mergeStep
    cases h : g.variant_id == some v <;> simp [List.filter_cons, h]
  | cons u rest ih =>
    unfold mergeStep
    cases hm : u.variant_id == g.variant_id
    · simp only [Bool.false_eq_true, if_false]
      have hall : (u :: rest).all (fun x => !(x.variant_id == g.variant_id)) =
          rest.all (fun x => !(x.variant_id == g.variant_id)) := by
        simp [List.all_cons, hm]
      rw [hall, List.filter_cons, List.filter_cons]
      cases hu : u.variant_id == some v
      · simp only [Bool.false_eq_true, if_false]
        exact ih
      · simp only [if_true, List.length_cons]
        rw [ih]
        omega
    · simp only [if_true]
      have hall : (u :: rest).all (fun x => !(x.variant_id == g.variant_id)) = false := by
        simp [List.all_cons, hm]
      rw [hall, Bool.and_false, List.filter_cons, List.filter_cons]
      have hproj : ({ u with quantity := u.quantity + g.quantity } : CartItem).variant_id
          = u.variant_id := rfl
      rw [hproj]
      cases hu : u.variant_id == some v
      · simp [hu]
      · simp [hu]

theorem mergeStep_uniq (us : List CartItem) (g : CartItem)
    (h : ∀ v : Nat, (us.filter (fun it => it.variant_id == some v)).length ≤ 1) :
    ∀ v : Nat, ((mergeStep us g).filter (fun it => it.variant_id == some v)).length ≤ 1 := by
  intro v
  rw [mergeStep_filter_length]
  cases hgv : g.variant_id == some v
  · simpa [hgv] using h v
  · cases hall : us.all (fun u => !(u.variant_id == g.variant_id))
    · simpa [hall] using h v
    · have hnil : us.filter (fun it => it.variant_id == some v) = [] := by
        refine List.filter_eq_nil_iff.mpr ?_
        intro u hu hmatch
        have hne := List.all_eq_true.mp hall u hu
        rw [eq_of_beq hgv] at hne
        simp only [Bool.not_eq_true'] at hne
        rw [show u.variant_id = some v from by simpa using hmatch] at hne
        simp at hne
      simp [hgv, hall, hnil]

theorem mergeFold_uniq (gs us : List CartItem)
    (h : ∀ v : Nat, (us.filter (fun it => it.variant_id == some v)).length ≤ 1) :
    ∀ v : Nat, (((gs.foldl mergeStep us)).filter (fun it => it.variant_id == some v)).length ≤ 1 := by
  induction gs generalizing us with
  | nil => exact h
  | cons g rest ih => exact ih (mergeStep us g) (mergeStep_uniq us g h)

theorem filter_variant_len_le_one {l : List CartItem}
    (h : (l.filterMap (fun it => it.variant_id)).Nodup) (v : Nat) :
    (l.filter (fun it => it.variant_id == some v)).length ≤ 1 := by
  induction l with
  | nil => simp
  | cons x rest ih =>
    cases hx : x.variant_id with
    | none =>
      rw [List.filterMap_cons, hx] at h
      rw [List.filter_cons]
      simp only [hx]
      simpa using ih h
    | some w =>
      rw [List.filterMap_cons, hx] at h
      have h1 : w ∉ rest.filterMap (fun it => it.variant_id) :=
        (List.nodup_cons.mp h).1
      have h2 := (List.nodup_cons.mp h).2
      rw [List.filter_cons]
      simp only [hx]
      cases hwv : ((some w : Option Nat) == some v)
      · simpa [hwv] using ih h2
      · have hwv' : w = v := by
          have := eq_of_beq hwv
          injection this
        have hnil : rest.filter (fun it => it.variant_id == some v) = [] := by
          refine List.filter_eq_nil_iff.mpr ?_
          intro y hy hmatch
          refine h1 ?_
          refine List.mem_filterMap.mpr ⟨y, hy, ?_⟩
          have : y.variant_id = some v := by simpa using hmatch
          rw [this, hwv']
        simp [hwv, hnil]

/-- Claim C7, amended: `_merge_carts` matches guest items against the user
cart by the `variant` foreign key alone.  Assuming the `unique_cart_variant`
constraint on the user cart (at most one item per non-null variant), after a
merge: the guest cart is gone, for every variant the user cart holds the sum
of the two carts' quantities, and it still holds at most one item per
variant — in particular guest (variant X, qty 2) into user (variant X,
qty 3) yields one item with qty 5.  (A variant-less guest item, however, is
merged into the first variant-less user item regardless of product — see
`mergeCarts_wrong_product_absorbs_quantity`.) -/
theorem mergeCarts_variant_semantics (us gs : List CartItem)
    (hnd : (us.filterMap (fun it => it.variant_id)).Nodup) :
    (mergeCarts ⟨us, some gs⟩).guestItems = none ∧
    (∀ v : Nat, variantQty (mergeCarts ⟨us, some gs⟩).userItems v =
      variantQty us v + variantQty gs v) ∧
    (∀ v : Nat, ((mergeCarts ⟨us, some gs⟩).userItems.filter
        (fun it => it.variant_id == some v)).length ≤ 1) := by
  refine ⟨rfl, ?_, ?_⟩
  · intro v
    exact variantQty_mergeFold gs us v
  · exact mergeFold_uniq gs us (filter_variant_len_le_one hnd)

/-- Guest cart item: 2 × variant 1. -/
def gItemVar : CartItem := ⟨20, 9, some 1, none, "V1", "Helmet", "Red", 2, 80⟩

/-- User cart item: 3 × variant 1. -/
def uItemVar : CartItem := ⟨21, 8, some 1, none, "V1", "Helmet", "Red", 3, 80⟩

/-- Witness for `mergeCarts_variant_semantics`: the spec's example — guest
(variant 1, qty 2) merged into user (variant 1, qty 3) gives quantity 5 in a
single item, and the guest cart is gone. -/
theorem mergeCarts_variant_semantics_witness :
    ([uItemVar].filterMap (fun it => it.variant_id)).Nodup ∧
    (mergeCarts ⟨[uItemVar], some [gItemVar]⟩).guestItems = none ∧
    variantQty (mergeCarts ⟨[uItemVar], some [gItemVar]⟩).userItems 1 = 5 := by
  have h := mergeCarts_variant_semantics [uItemVar] [gItemVar] (by decide)
  refine ⟨by decide, h.1, ?_⟩
  rw [h.2.1 1]
  decide

/-- The per-(user, address_type) default invariant, the row-id uniqueness of
a primary key, and the corresponding shipping-flag invariant: no two rows of
one user and one address type both carry `is_default_billing=true`
(resp. `is_default_shipping=true`). -/
def addrInv (addrs : List Address) : Prop :=
  (addrs.map Address.id).Nodup ∧
  addrs.Pairwise (fun a b => a.user_id = b.user_id → a.address_type = b.address_type →
    a.is_default_billing = true → b.is_default_billing = true → False) ∧
  addrs.Pairwise (fun a b => a.user_id = b.user_id → a.address_type = b.address_type →
    a.is_default_shipping = true → b.is_default_shipping = true → False)

theorem addrInv_map_clear (l : List Address) (f : Address → Address)
    (hid : ∀ b, (f b).id = b.id)
    (huser : ∀ b, (f b).user_id = b.user_id)
    (htype : ∀ b, (f b).address_type = b.address_type)
    (hbill : ∀ b, (f b).is_default_billing = true → b.is_default_billing = true)
    (hship : ∀ b, (f b).is_default_shipping = true → b.is_default_shipping = true)
    (h : addrInv l) : addrInv (l.map f) := by
  obtain ⟨h1, h2, h3⟩ := h
  refine ⟨?_, ?_, ?_⟩
  · have e : (l.map f).map Address.id = l.map Address.id := by
      rw [List.map_map]
      exact List.map_congr_left (fun b _ => hid b)
    rw [e]
    exact h1
  · rw [List.pairwise_map]
    refine h2.imp ?_
    intro a b hR hu ht hba hbb
    exact hR ((huser a).symm.trans (hu.trans (huser b)))
      ((htype a).symm.trans (ht.trans (htype b))) (hbill a hba) (hbill b hbb)
  · rw [List.pairwise_map]
    refine h3.imp ?_
    intro a b hR hu ht hsa hsb
    exact hR ((huser a).symm.trans (hu.trans (huser b)))
      ((htype a).symm.trans (ht.trans (htype b))) (hship a hsa) (hship b hsb)

theorem addrInv_upsert (l : List Address) (a : Address)
    (hinv : addrInv l)
    (hnc : addressWouldClash l a = false) :
    addrInv (addressUpsert l a) := by
  obtain ⟨h1, h2, h3⟩ := hinv
  have hncB : a.is_default_billing = true → ∀ b ∈ l, b.id ≠ a.id →
      b.user_id = a.user_id → b.address_type = a.address_type →
      b.is_default_billing = true → False := by
    intro ha b hb hne hu ht hbd
    unfold addressWouldClash at hnc
    rw [ha] at hnc
    simp only [Bool.true_and, Bool.or_eq_false_iff] at hnc
    have := List.any_eq_false.mp hnc.1 b hb
    simp only [Bool.and_eq_true, bne_iff_ne, ne_eq, beq_iff_eq] at this
    exact this ⟨⟨⟨hne, hu⟩, ht⟩, hbd⟩
  have hncS : a.is_default_shipping = true → ∀ b ∈ l, b.id ≠ a.id →
      b.user_id = a.user_id → b.address_type = a.address_type →
      b.is_default_shipping = true → False := by
    intro ha b hb hne hu ht hbd
    unfold addressWouldClash at hnc
    rw [ha] at hnc
    simp only [Bool.true_and, Bool.or_eq_false_iff] at hnc
    have := List.any_eq_false.mp hnc.2 b hb
    simp only [Bool.and_eq_true, bne_iff_ne, ne_eq, beq_iff_eq] at this
    exact this ⟨⟨⟨hne, hu⟩, ht⟩, hbd⟩
  have hpne : l.Pairwise (fun x y => x.id ≠ y.id) := by
    have h1' : (l.map Address.id).Pairwise (fun x y => x ≠ y) := h1
    exact List.pairwise_map.mp h1'
  unfold addressUpsert
  cases hmem : l.any (fun b => b.id == a.id)
  · simp only [Bool.false_eq_true, if_false]
    have hnotin : ∀ b ∈ l, b.id ≠ a.id := by
      intro b hb
      have := List.any_eq_false.mp hmem b hb
      simpa using this
    refine ⟨?_, ?_, ?_⟩
    · rw [List.map_append]
      refine List.Nodup.append h1 (List.nodup_singleton _) ?_
      intro x hx hx2
      obtain ⟨b, hb, rfl⟩ := List.mem_map.mp hx
      exact hnotin b hb (by simpa using hx2)
    · refine List.pairwise_append.mpr ⟨h2, List.pairwise_singleton _ _, ?_⟩
      intro x hx y hy
      have hya : y = a := by simpa using hy
      subst hya
      intro hu ht hxf hyf
      exact hncB hyf x hx (hnotin x hx) hu ht hxf
    · refine List.pairwise_append.mpr ⟨h3, List.pairwise_singleton _ _, ?_⟩
      intro x hx y hy
      have hya : y = a := by simpa using hy
      subst hya
      intro hu ht hxf hyf
      exact hncS hyf x hx (hnotin x hx) hu ht hxf
  · simp only [if_true]
    have hgid : ∀ b : Address, ((if b.id == a.id then a else b) : Address).id = b.id := by
      intro b
      cases hb : b.id == a.id
      · simp [hb]
      · simp [hb, eq_of_beq hb]
    refine ⟨?_, ?_, ?_⟩
    · have e : (l.map (fun b => if b.id == a.id then a else b)).map Address.id =
          l.map Address.id := by
        rw [List.map_map]
        exact List.map_congr_left (fun b _ => hgid b)
      rw [e]
      exact h1
    · rw [List.pairwise_map]
      refine List.Pairwise.imp_of_mem ?_ (hpne.and h2)
      intro x y hx hy hxy
      obtain ⟨hne, hR⟩ := hxy
      cases hxa : x.id == a.id
      · cases hya : y.id == a.id
        · simpa [hxa, hya] using hR
        · have hya' : y.id = a.id := eq_of_beq hya
          simp only [hxa, hya', Bool.false_eq_true, if_false, beq_self_eq_true, if_true]
          intro hu ht hxf hyf
          have hxne : x.id ≠ a.id := by simpa using hxa
          exact hncB hyf x hx hxne hu ht hxf
      · have hxa' : x.id = a.id := eq_of_beq hxa
        cases hya : y.id == a.id
        · simp only [hxa', beq_self_eq_true, if_true, hya, Bool.false_eq_true, if_false]
          intro hu ht hxf hyf
          have hyne : y.id ≠ a.id := by simpa using hya
          exact hncB hxf y hy hyne hu.symm ht.symm hyf
        · exact absurd (hxa'.trans (eq_of_beq hya).symm) hne
    · rw [List.pairwise_map]
      refine List.Pairwise.imp_of_mem ?_ (hpne.and h3)
      intro x y hx hy hxy
      obtain ⟨hne, hR⟩ := hxy
      cases hxa : x.id == a.id
      · cases hya : y.id == a.id
        · simpa [hxa, hya] using hR
        · have hya' : y.id = a.id := eq_of_beq hya
          simp only [hxa, hya', Bool.false_eq_true, if_false, beq_self_eq_true, if_true]
          intro hu ht hxf hyf
          have hxne : x.id ≠ a.id := by simpa using hxa
          exact hncS hyf x hx hxne hu ht hxf
      · have hxa' : x.id = a.id := eq_of_beq hxa
        cases hya : y.id == a.id
        · simp only [hxa', beq_self_eq_true, if_true, hya, Bool.false_eq_true, if_false]
          intro hu ht hxf hyf
          have hyne : y.id ≠ a.id := by simpa using hya
          exact hncS hxf y hy hyne hu.symm ht.symm hyf
        · exact absurd (hxa'.trans (eq_of_beq hya).symm) hne

theorem addressSave_preserves_inv (addrs : List Address) (a : Address)
    (h : addrInv addrs) : addrInv (addressSave addrs a) := by
  have hs1 : addrInv (addrs.map (fun b =>
      if a.is_default_billing && b.user_id == a.user_id &&
         b.address_type == AddrType.billing && b.is_default_billing &&
         b.id != a.id
      then { b with is_default_billing := false } else b)) := by
    refine addrInv_map_clear _ _ ?_ ?_ ?_ ?_ ?_ h <;> intro b
    · split <;> rfl
    · split <;> rfl
    · split <;> rfl
    · split <;> intro hfb
      · simpa using hfb
      · exact hfb
    · split <;> intro hfb
      · exact hfb
      · exact hfb
  have hs2 : addrInv ((addrs.map (fun b =>
      if a.is_default_billing && b.user_id == a.user_id &&
         b.address_type == AddrType.billing && b.is_default_billing &&
         b.id != a.id
      then { b with is_default_billing := false } else b)).map (fun b =>
      if a.is_default_shipping && b.user_id == a.user_id &&
         b.address_type == AddrType.shipping && b.is_default_shipping &&
         b.id != a.id
      then { b with is_default_shipping := false } else b)) := by
    refine addrInv_map_clear _ _ ?_ ?_ ?_ ?_ ?_ hs1 <;> intro b
    · split <;> rfl
    · split <;> rfl
    · split <;> rfl
    · split <;> intro hfb
      · exact hfb
      · exact hfb
    · split <;> intro hfb
      · simpa using hfb
      · exact hfb
  simp only [addressSave]
  split
  · exact hs2
  · next hcond => exact addrInv_upsert _ a hs2 (by simpa using hcond)

/-- Claim C6, amended: the "unset siblings" step of `Address.save` clears a
default flag only on rows whose `address_type` equals the flag's own type
(the literal `'billing'` resp. `'shipping'`), and the conditional unique
constraints key on `(user, address_type)`.  Hence after any sequence of
saves each user has, per address type, at most one row with
`is_default_billing=true` and at most one with `is_default_shipping=true` —
but a billing-type and a shipping-type row may simultaneously carry the same
default flag, so "at most one default-billing address per user" does not
hold across types (see `addressSave_two_default_billing`). -/
theorem addressSave_foldl_inv (addrs : List Address) (saves : List Address)
    (h : addrInv addrs) : addrInv (saves.foldl addressSave addrs) := by
  induction saves generalizing addrs with
  | nil => exact h
  | cons s rest ih => exact ih _ (addressSave_preserves_inv addrs s h)

/-- A second billing-type default-billing address (id 3). -/
def addrBill3 : Address := ⟨3, some 1, .billing, "Work", "019", "st2", "Ctg", "Ctg", "4000", "BD", true, false⟩

/-- Witness for `addressSave_foldl_inv`: saving two billing-type default
addresses in sequence clears the flag on the first; the invariant holds of
the result. -/
theorem addressSave_foldl_inv_witness :
    addrInv ([] : List Address) ∧
    addrInv ([addrBillDefault, addrBill3].foldl addressSave []) ∧
    [addrBillDefault, addrBill3].foldl addressSave [] =
      [{ addrBillDefault with is_default_billing := false }, addrBill3] := by
  have hnil : addrInv ([] : List Address) :=
    ⟨List.nodup_nil, List.Pairwise.nil, List.Pairwise.nil⟩
  exact ⟨hnil, addressSave_foldl_inv [] [addrBillDefault, addrBill3] hnil, by decide⟩

theorem getOrCreateAddress_frame {db db' : Db} {uid : Nat} {aid? : Option Nat}
    {g? : Option GuestAddress} {ty : AddrType} {a : Address}
    (h : getOrCreateAddress db uid aid? g? ty = .ok (db', a)) :
    db'.cartItems = db.cartItems ∧ db'.payments = db.payments ∧
    db'.products = db.products ∧ db'.variants = db.variants ∧
    db'.orders = db.orders ∧ db'.orderItems = db.orderItems ∧
    db'.carts = db.carts ∧ db'.nextOrderId = db.nextOrderId := by
  unfold getOrCreateAddress at h
  split at h
  · split at h
    · injection h with h'
      have hdb := (Prod.mk.inj h').1
      rw [← hdb]
      exact ⟨rfl, rfl, rfl, rfl, rfl, rfl, rfl, rfl⟩
    · cases h
  · split at h
    · injection h with h'
      have hdb := (Prod.mk.inj h').1
      rw [← hdb]
      exact ⟨rfl, rfl, rfl, rfl, rfl, rfl, rfl, rfl⟩
    · cases h

theorem resolveAddresses_frame {db db1 : Db} {actor : Actor} {req : CreateOrderReq}
    {billing shipping : Option Address} {gBill gShip : Option GuestAddress}
    (h : resolveAddresses db actor req = .ok (db1, billing, shipping, gBill, gShip)) :
    db1.cartItems = db.cartItems ∧ db1.payments = db.payments ∧
    db1.products = db.products ∧ db1.variants = db.variants ∧
    db1.orders = db.orders ∧ db1.orderItems = db.orderItems ∧
    db1.carts = db.carts ∧ db1.nextOrderId = db.nextOrderId := by
  unfold resolveAddresses at h
  cases actor with
  | guest sk =>
    injection h with h'
    rw [show db1 = db from by injection h' with h1 _; exact h1.symm]
    exact ⟨rfl, rfl, rfl, rfl, rfl, rfl, rfl, rfl⟩
  | user uid =>
    simp only [bind, Except.bind] at h
    cases hb : getOrCreateAddress db uid req.billing_address_id
        req.guest_billing_address AddrType.billing with
    | error e =>
      simp only [hb] at h
      cases h
    | ok r =>
      obtain ⟨dbB, ba⟩ := r
      simp only [hb] at h
      cases hs : getOrCreateAddress dbB uid req.shipping_address_id
          req.guest_shipping_address AddrType.shipping with
      | error e =>
        simp only [hs] at h
        cases h
      | ok r2 =>
        obtain ⟨dbS, sa⟩ := r2
        simp only [hs] at h
        injection h with h'
        have hdb : dbS = db1 := (Prod.mk.inj h').1
        subst hdb
        have f1 := getOrCreateAddress_frame hb
        have f2 := getOrCreateAddress_frame hs
        exact ⟨f2.1.trans f1.1, f2.2.1.trans f1.2.1, f2.2.2.1.trans f1.2.2.1,
          f2.2.2.2.1.trans f1.2.2.2.1, f2.2.2.2.2.1.trans f1.2.2.2.2.1,
          f2.2.2.2.2.2.1.trans f1.2.2.2.2.2.1,
          f2.2.2.2.2.2.2.1.trans f1.2.2.2.2.2.2.1,
          f2.2.2.2.2.2.2.2.trans f1.2.2.2.2.2.2.2⟩

theorem createOrder_ok_inversion {db : Db} {actor : Actor} {req : CreateOrderReq}
    {o : Order} (h : (createOrder db actor req).2 = .ok o) :
    ∃ cart db1 billing shipping gBill gShip,
      findCart db actor = some cart ∧
      resolveAddresses db actor req = .ok (db1, billing, shipping, gBill, gShip) ∧
      createOrder db actor req =
        ((createOrderCommit db1 cart actor req billing shipping gBill gShip).1,
         .ok (createOrderCommit db1 cart actor req billing shipping gBill gShip).2) ∧
      o = (createOrderCommit db1 cart actor req billing shipping gBill gShip).2 := by
  unfold createOrder at h
  split at h
  · simp at h
  · next hvne =>
    have hv : validReq actor req = true := by
      cases hvb : validReq actor req
      · exact absurd (by rw [hvb]; rfl) hvne
      · rfl
    split at h
    · simp at h
    · next cart hc =>
      split at h
      · simp at h
      · next hene =>
        have hemp : (cartItemsOf db cart.id).isEmpty = false := by
          cases heb : (cartItemsOf db cart.id).isEmpty
          · rfl
          · exact absurd heb hene
        split at h
        · simp at h
        · next hf =>
          split at h
          · simp at h
          · next db1 billing shipping gBill gShip hr =>
            refine ⟨cart, db1, billing, shipping, gBill, gShip, hc, hr, ?_, ?_⟩
            · unfold createOrder
              rw [hv, hc]
              simp only [hemp, hf, hr, Bool.not_true, Bool.false_eq_true, if_false]
            · simpa using h.symm

theorem createOrderProcessItem_frame (oid : Nat) (d : Db) (it : CartItem) :
    (createOrderProcessItem oid d it).payments = d.payments ∧
    (createOrderProcessItem oid d it).orders = d.orders ∧
    (createOrderProcessItem oid d it).carts = d.carts := by
  unfold createOrderProcessItem
  split
  · exact ⟨rfl, rfl, rfl⟩
  · split
    · exact ⟨rfl, rfl, rfl⟩
    · exact ⟨rfl, rfl, rfl⟩

theorem foldProcessItem_payments (oid : Nat) (L : List CartItem) (d : Db) :
    (L.foldl (createOrderProcessItem oid) d).payments = d.payments := by
  induction L generalizing d with
  | nil => rfl
  | cons it rest ih =>
    rw [List.foldl_cons, ih, (createOrderProcessItem_frame oid d it).1]

theorem createOrderCommit_spec (db1 : Db) (cart : Cart) (actor : Actor)
    (req : CreateOrderReq) (billing shipping : Option Address)
    (gBill gShip : Option GuestAddress) :
    (createOrderCommit db1 cart actor req billing shipping gBill gShip).2.subtotal =
      Cart.get_subtotal db1 cart.id ∧
    (createOrderCommit db1 cart actor req billing shipping gBill gShip).2.discount =
      req.discount ∧
    (createOrderCommit db1 cart actor req billing shipping gBill gShip).2.shipping_cost =
      selectShippingCost req.shipping_cost shipping gShip ∧
    (createOrderCommit db1 cart actor req billing shipping gBill gShip).2.total_price =
      Cart.get_subtotal db1 cart.id - req.discount +
        selectShippingCost req.shipping_cost shipping gShip ∧
    (createOrderCommit db1 cart actor req billing shipping gBill gShip).2.status =
      OrderStatus.pending ∧
    (createOrderCommit db1 cart actor req billing shipping gBill gShip).2.payment_status =
      PayStatus.unpaid ∧
    (createOrderCommit db1 cart actor req billing shipping gBill gShip).1.payments =
      db1.payments ++
      [({ order_id := (createOrderCommit db1 cart actor req billing shipping gBill gShip).2.id
          method := req.payment_method
          amount := (createOrderCommit db1 cart actor req billing shipping gBill gShip).2.total_price
          success := false } : Payment)] := by
  refine ⟨rfl, rfl, rfl, rfl, rfl, rfl, ?_⟩
  simp only [createOrderCommit, orderCreateRow]
  rw [foldProcessItem_payments]

/-- Claim C3: every successfully created order satisfies
`total_price = subtotal − discount + shipping_cost`, its `subtotal` is the
sum of `price_snapshot × quantity` over the source cart's items, and the
`Payment` row appended by the transaction carries `amount = total_price` and
`success = false`. -/
theorem createOrder_totals_and_payment (db : Db) (actor : Actor)
    (req : CreateOrderReq) (o : Order) (cart : Cart)
    (hcart : findCart db actor = some cart)
    (hok : (createOrder db actor req).2 = .ok o) :
    o.total_price = o.subtotal - o.discount + o.shipping_cost ∧
    o.discount = req.discount ∧
    o.subtotal = Cart.get_subtotal db cart.id ∧
    (createOrder db actor req).1.payments = db.payments ++
      [({ order_id := o.id, method := req.payment_method,
          amount := o.total_price, success := false } : Payment)] := by
  obtain ⟨cart', db1, billing, shipping, gBill, gShip, hc', hr, heq, ho⟩ :=
    createOrder_ok_inversion hok
  have hcc : cart' = cart := by
    rw [hcart] at hc'
    injection hc' with h'
    exact h'.symm
  subst hcc
  have frames := resolveAddresses_frame hr
  have hsub : Cart.get_subtotal db1 cart'.id = Cart.get_subtotal db cart'.id := by
    unfold Cart.get_subtotal cartItemsOf
    rw [frames.1]
  have spec := createOrderCommit_spec db1 cart' actor req billing shipping gBill gShip
  refine ⟨?_, ?_, ?_, ?_⟩
  · rw [ho, spec.2.2.2.1, spec.1, spec.2.1, spec.2.2.1]
  · rw [ho, spec.2.1]
  · rw [ho, spec.1, hsub]
  · have h1 : (createOrder db actor req).1 =
        (createOrderCommit db1 cart' actor req billing shipping gBill gShip).1 :=
      congrArg Prod.fst heq
    rw [h1, spec.2.2.2.2.2.2, frames.2.1, ho]

/-- The concrete order produced by checking out `dbGuestCart` with
`reqDhaka`: subtotal 240, shipping 60, total 300. -/
def orderW : Order := ⟨1, none, some "s", 1, .pending, .unpaid, none, none,
  some "a@b.c", some "018", some gaDhaka, some gaDhaka, 240, 0, 60, 300⟩

/-- Witness for `createOrder_totals_and_payment`: the guest checkout of
3 × `varRed` at snapshot 80 with Dhaka shipping. -/
theorem createOrder_totals_and_payment_witness :
    findCart dbGuestCart (.guest (some "s")) = some cartGuest ∧
    (createOrder dbGuestCart (.guest (some "s")) reqDhaka).2 = .ok orderW ∧
    (orderW.total_price = orderW.subtotal - orderW.discount + orderW.shipping_cost ∧
     orderW.discount = reqDhaka.discount ∧
     orderW.subtotal = Cart.get_subtotal dbGuestCart cartGuest.id ∧
     (createOrder dbGuestCart (.guest (some "s")) reqDhaka).1.payments =
       dbGuestCart.payments ++
       [({ order_id := orderW.id, method := reqDhaka.payment_method,
           amount := orderW.total_price, success := false } : Payment)]) :=
  ⟨by decide, by decide,
   createOrder_totals_and_payment dbGuestCart (.guest (some "s")) reqDhaka
     orderW cartGuest (by decide) (by decide)⟩

theorem find?_append_orElse {α} (l₁ l₂ : List α) (p : α → Bool) :
    (l₁ ++ l₂).find? p = (l₁.find? p).orElse (fun _ => l₂.find? p) := by
  induction l₁ with
  | nil => simp [Option.orElse]
  | cons x xs ih =>
    rw [List.cons_append]
    cases hp : p x
    · rw [List.find?_cons_of_neg _ (by simp [hp]),
        List.find?_cons_of_neg _ (by simp [hp]), ih]
    · rw [List.find?_cons_of_pos _ hp, List.find?_cons_of_pos _ hp]
      rfl

/-- The city the create-order flow resolves for shipping: for an
authenticated user either the city of the referenced own address row or the
guest-style payload's city; for a guest the payload's city.  (Derived from
`CreateOrderView.post` / `_get_or_create_address`.) -/
def shippingCityOf (db : Db) (actor : Actor) (req : CreateOrderReq) : Option String :=
  match actor with
  | .user uid =>
      if req.shipping_address_id.getD 0 != 0 then
        (db.addresses.find? (fun a => a.id == req.shipping_address_id.getD 0 &&
          a.user_id == some uid)).map Address.city
      else req.guest_shipping_address.map GuestAddress.city
  | .guest _ => req.guest_shipping_address.map GuestAddress.city

theorem getOrCreateAddress_addresses {db db' : Db} {uid : Nat} {aid? : Option Nat}
    {g? : Option GuestAddress} {ty : AddrType} {a : Address}
    (h : getOrCreateAddress db uid aid? g? ty = .ok (db', a)) :
    (db'.addresses = db.addresses) ∨
    (∃ a', a'.id = db.nextAddressId ∧ db'.addresses = db.addresses ++ [a']) := by
  unfold getOrCreateAddress at h
  split at h
  · split at h
    · injection h with h'
      have hdb := (Prod.mk.inj h').1
      left
      rw [← hdb]
    · cases h
  · split at h
    · injection h with h'
      have hdb := (Prod.mk.inj h').1
      right
      rw [← hdb]
      exact ⟨_, rfl, rfl⟩
    · cases h

theorem getOrCreateAddress_shipping_city {db dbB db1 : Db} {uid : Nat}
    {req : CreateOrderReq} {sa : Address}
    (hs : getOrCreateAddress dbB uid req.shipping_address_id
      req.guest_shipping_address AddrType.shipping = .ok (db1, sa))
    (hBaddr : dbB.addresses = db.addresses ∨
      (∃ a', a'.id = db.nextAddressId ∧ dbB.addresses = db.addresses ++ [a']))
    (hreq : ∀ i, req.shipping_address_id = some i → i < db.nextAddressId) :
    shippingCityOf db (.user uid) req = some sa.city := by
  unfold getOrCreateAddress at hs
  simp only [shippingCityOf]
  split at hs
  · next htruthy =>
    rw [if_pos htruthy]
    split at hs
    · next b hfound =>
      injection hs with h'
      have hsa : b = sa := (Prod.mk.inj h').2
      have hlt : req.shipping_address_id.getD 0 < db.nextAddressId := by
        cases hsid : req.shipping_address_id with
        | none => rw [hsid] at htruthy; simp at htruthy
        | some i => simpa using hreq i hsid
      have hfound' : db.addresses.find? (fun a =>
          a.id == req.shipping_address_id.getD 0 && a.user_id == some uid) =
          some b := by
        rcases hBaddr with hB | ⟨a', ha', hB⟩
        · rw [hB] at hfound
          exact hfound
        · rw [hB, find?_append_orElse] at hfound
          cases hdf : db.addresses.find? (fun a =>
              a.id == req.shipping_address_id.getD 0 && a.user_id == some uid) with
          | some c =>
            rw [hdf] at hfound
            simp only [Option.orElse] at hfound
            injection hfound with hbe
            rw [hbe]
          | none =>
            rw [hdf] at hfound
            simp only [Option.orElse] at hfound
            exfalso
            have hmem : b ∈ [a'] := List.mem_of_find?_eq_some hfound
            have haeq : b = a' := List.mem_singleton.mp hmem
            have hpred := List.find?_some hfound
            rw [haeq] at hpred
            simp only [Bool.and_eq_true, beq_iff_eq] at hpred
            obtain ⟨hp1, hp2⟩ := hpred
            omega
      rw [hfound', hsa]
      rfl
    · cases hs
  · next hfalsy =>
    rw [if_neg hfalsy]
    split at hs
    · next g hg =>
      injection hs with h'
      have hsa := (Prod.mk.inj h').2
      rw [hg, ← hsa]
      rfl
    · cases hs

/-- Claim C4: for every successfully created order, a caller-supplied
positive shipping cost is used as-is; otherwise the cost is 60 when the
resolved shipping city — stripped and lowercased — equals "dhaka", and 120
for every other (or missing) city.  The bound on `shipping_address_id`
states the referenced id was allocated before the request, ruling out the
pathological case of a request naming the id the transaction itself is about
to assign. -/
theorem createOrder_shipping_cost_spec (db : Db) (actor : Actor)
    (req : CreateOrderReq) (o : Order)
    (hok : (createOrder db actor req).2 = .ok o)
    (hreq : ∀ i, req.shipping_address_id = some i → i < db.nextAddressId) :
    o.shipping_cost =
      if req.shipping_cost > 0 then req.shipping_cost
      else
        match shippingCityOf db actor req with
        | some c => if normalizeCity c == "dhaka" then 60 else 120
        | none => 120 := by
  obtain ⟨cart, db1, billing, shipping, gBill, gShip, hc, hr, heq, ho⟩ :=
    createOrder_ok_inversion hok
  have spec := createOrderCommit_spec db1 cart actor req billing shipping gBill gShip
  rw [ho, spec.2.2.1]
  unfold resolveAddresses at hr
  cases actor with
  | guest sk =>
    injection hr with h'
    obtain ⟨hdb, h2⟩ := Prod.mk.inj h'
    obtain ⟨hbill, h3⟩ := Prod.mk.inj h2
    obtain ⟨hship, h4⟩ := Prod.mk.inj h3
    obtain ⟨hgb, hgs⟩ := Prod.mk.inj h4
    rw [← hship, ← hgs]
    unfold selectShippingCost shippingCityOf
    by_cases hp : req.shipping_cost > 0
    · rw [if_pos hp, if_pos hp]
    · rw [if_neg hp, if_neg hp]
      cases hgsv : req.guest_shipping_address with
      | some g => simp [calcShippingFromCity]
      | none => simp
  | user uid =>
    simp only [bind, Except.bind] at hr
    cases hb : getOrCreateAddress db uid req.billing_address_id
        req.guest_billing_address AddrType.billing with
    | error e =>
      simp only [hb] at hr
      cases hr
    | ok rb =>
      obtain ⟨dbB, ba⟩ := rb
      simp only [hb] at hr
      cases hs : getOrCreateAddress dbB uid req.shipping_address_id
          req.guest_shipping_address AddrType.shipping with
      | error e =>
        simp only [hs] at hr
        cases hr
      | ok rs =>
        obtain ⟨dbS, sa⟩ := rs
        simp only [hs] at hr
        injection hr with h'
        obtain ⟨hdb, h2⟩ := Prod.mk.inj h'
        obtain ⟨hbill, h3⟩ := Prod.mk.inj h2
        obtain ⟨hship, h4⟩ := Prod.mk.inj h3
        have hcity := getOrCreateAddress_shipping_city hs
          (getOrCreateAddress_addresses hb) hreq
        rw [← hship]
        unfold selectShippingCost
        by_cases hp : req.shipping_cost > 0
        · rw [if_pos hp, if_pos hp]
        · rw [if_neg hp, if_neg hp, hcity]
          simp [calcShippingFromCity]

/-- Witness for `createOrder_shipping_cost_spec`: the Dhaka guest checkout
gets the 60 tier (the request supplies no positive shipping cost). -/
theorem createOrder_shipping_cost_spec_witness :
    (createOrder dbGuestCart (.guest (some "s")) reqDhaka).2 = .ok orderW ∧
    orderW.shipping_cost =
      (if reqDhaka.shipping_cost > 0 then reqDhaka.shipping_cost
       else
         match shippingCityOf dbGuestCart (.guest (some "s")) reqDhaka with
         | some c => if normalizeCity c == "dhaka" then 60 else 120
         | none => 120) ∧
    orderW.shipping_cost = 60 :=
  ⟨by decide,
   createOrder_shipping_cost_spec dbGuestCart (.guest (some "s")) reqDhaka orderW
     (by decide) (by intro i h; cases h),
   by decide⟩

/-- The stock column of variant `vid` (none when no such row). -/
def variantStockById (db : Db) (vid : Nat) : Option Int :=
  (findVariant db vid).map ProductVariant.stock

/-- The stock column of product `pid` (none when no such row). -/
def productStockById (db : Db) (pid : Nat) : Option Int :=
  (findProduct db pid).map Product.stock

/-- Does the cancel loop route this item's quantity to variant `vid`? -/
def itemRestoresVariant (db : Db) (it : OrderItem) (vid : Nat) : Bool :=
  match it.variantObj db with
  | some v => v.id == vid
  | none => false

/-- Does the cancel loop route this item's quantity to product `pid`? -/
def itemRestoresProduct (db : Db) (it : OrderItem) (pid : Nat) : Bool :=
  match it.variantObj db with
  | some _ => false
  | none =>
      match it.productObj db with
      | some p => p.id == pid
      | none => false

/-- Total quantity the cancellation of order `oid` gives back to variant
`vid`. -/
def restoredVariantQty (db : Db) (oid vid : Nat) : Int :=
  ((orderItemsOf db oid).map
    (fun it => if itemRestoresVariant db it vid then (it.quantity : Int) else 0)).sum

/-- Total quantity the cancellation of order `oid` gives back to product
`pid`. -/
def restoredProductQty (db : Db) (oid pid : Nat) : Int :=
  ((orderItemsOf db oid).map
    (fun it => if itemRestoresProduct db it pid then (it.quantity : Int) else 0)).sum

theorem cancelRestoreItem_cases (d : Db) (it : OrderItem) :
    (∃ v0, it.variantObj d = some v0 ∧
      cancelRestoreItem d it = { d with variants := d.variants.map (fun w =>
        if w.id == v0.id then { w with stock := w.stock + (it.quantity : Int) } else w) }) ∨
    (∃ p0, it.variantObj d = none ∧ it.productObj d = some p0 ∧
      cancelRestoreItem d it = { d with products := d.products.map (fun q =>
        if q.id == p0.id then { q with stock := q.stock + (it.quantity : Int) } else q) }) ∨
    (it.variantObj d = none ∧ it.productObj d = none ∧ cancelRestoreItem d it = d) := by
  cases hvo : it.variantObj d with
  | some v0 =>
    left
    exact ⟨v0, rfl, by unfold cancelRestoreItem; rw [hvo]⟩
  | none =>
    cases hpo : it.productObj d with
    | some p0 =>
      right; left
      exact ⟨p0, rfl, rfl, by unfold cancelRestoreItem; rw [hvo, hpo]⟩
    | none =>
      right; right
      exact ⟨rfl, rfl, by unfold cancelRestoreItem; rw [hvo, hpo]⟩

theorem findVariant_mapped (d : Db) (f : ProductVariant → ProductVariant)
    (hid : ∀ w, (f w).id = w.id) (y : Nat) :
    findVariant { d with variants := d.variants.map f } y = (findVariant d y).map f := by
  show (d.variants.map f).find? (fun v => v.id == y) = _
  rw [List.find?_map]
  have hp : ((fun v : ProductVariant => v.id == y) ∘ f) = (fun v => v.id == y) := by
    funext w
    simp [Function.comp, hid w]
  rw [hp]
  rfl

theorem findVariant_products_mapped (d : Db) (f : Product → Product) (y : Nat) :
    findVariant { d with products := d.products.map f } y = findVariant d y := rfl

theorem findProduct_variants_mapped (d : Db) (f : ProductVariant → ProductVariant) (y : Nat) :
    findProduct { d with variants := d.variants.map f } y = findProduct d y := rfl

theorem findProduct_mapped (d : Db) (f : Product → Product)
    (hid : ∀ w, (f w).id = w.id) (y : Nat) :
    findProduct { d with products := d.products.map f } y = (findProduct d y).map f := by
  show (d.products.map f).find? (fun v => v.id == y) = _
  rw [List.find?_map]
  have hp : ((fun v : Product => v.id == y) ∘ f) = (fun v => v.id == y) := by
    funext w
    simp [Function.comp, hid w]
  rw [hp]
  rfl

theorem itemRestores_stable (d : Db) (it' it : OrderItem) (x : Nat) :
    itemRestoresVariant (cancelRestoreItem d it') it x = itemRestoresVariant d it x ∧
    itemRestoresProduct (cancelRestoreItem d it') it x = itemRestoresProduct d it x := by
  have hidv : ∀ v0 : ProductVariant, ∀ w : ProductVariant,
      ((if w.id == v0.id then { w with stock := w.stock + (it'.quantity : Int) } else w) :
        ProductVariant).id = w.id := by
    intro v0 w
    split <;> rfl
  have hidp : ∀ p0 : Product, ∀ w : Product,
      ((if w.id == p0.id then { w with stock := w.stock + (it'.quantity : Int) } else w) :
        Product).id = w.id := by
    intro p0 w
    split <;> rfl
  rcases cancelRestoreItem_cases d it' with ⟨v0, hvo, hd⟩ | ⟨p0, hvo, hpo, hd⟩ | ⟨hvo, hpo, hd⟩
  · rw [hd]
    unfold itemRestoresVariant itemRestoresProduct OrderItem.variantObj OrderItem.productObj
    cases hvid : it.variant_id with
    | none => exact ⟨rfl, rfl⟩
    | some y =>
      simp only [Option.some_bind]
      rw [findVariant_mapped d _ (hidv v0) y]
      cases hf : findVariant d y with
      | none => exact ⟨rfl, rfl⟩
      | some v =>
        constructor
        · by_cases hvv : v.id = v0.id <;> simp [hvv]
        · rfl
  · rw [hd]
    unfold itemRestoresVariant itemRestoresProduct OrderItem.variantObj OrderItem.productObj
    cases hvid : it.variant_id with
    | none =>
      refine ⟨rfl, ?_⟩
      cases hpid : it.product_id with
      | none => rfl
      | some y =>
        simp only [Option.some_bind]
        rw [findProduct_mapped d _ (hidp p0) y]
        cases hf : findProduct d y with
        | none => rfl
        | some p => by_cases hpp : p.id = p0.id <;> simp [hpp]
    | some y =>
      simp only [Option.some_bind]
      rw [findVariant_products_mapped]
      cases hf : findVariant d y with
      | some v => exact ⟨rfl, rfl⟩
      | none =>
        refine ⟨rfl, ?_⟩
        cases hpid : it.product_id with
        | none => rfl
        | some z =>
          simp only [Option.some_bind]
          rw [findProduct_mapped d _ (hidp p0) z]
          cases hf2 : findProduct d z with
          | none => rfl
          | some p => by_cases hpp : p.id = p0.id <;> simp [hpp]
  · rw [hd]
    exact ⟨rfl, rfl⟩

theorem variantStockById_step (d : Db) (it : OrderItem) (x : Nat) :
    variantStockById (cancelRestoreItem d it) x =
      (variantStockById d x).map
        (· + (if itemRestoresVariant d it x then (it.quantity : Int) else 0)) := by
  rcases cancelRestoreItem_cases d it with ⟨v0, hvo, hd⟩ | ⟨p0, hvo, hpo, hd⟩ | ⟨hvo, hpo, hd⟩
  · have hir : itemRestoresVariant d it x = (v0.id == x) := by
      unfold itemRestoresVariant
      rw [hvo]
    have hidv : ∀ w : ProductVariant,
        ((if w.id == v0.id then { w with stock := w.stock + (it.quantity : Int) } else w) :
          ProductVariant).id = w.id := by
      intro w
      split <;> rfl
    rw [hd, hir]
    unfold variantStockById
    rw [findVariant_mapped d _ hidv x]
    cases hf : findVariant d x with
    | none => rfl
    | some v =>
      have hvx : v.id = x := by
        have := List.find?_some hf
        simpa using this
      show some ((if v.id == v0.id then
          { v with stock := v.stock + (it.quantity : Int) } else v) :
          ProductVariant).stock = some (v.stock + if (v0.id == x) = true then _ else 0)
      by_cases hvv : v0.id = x
      · have h1 : (v.id == v0.id) = true := by
          rw [hvx, hvv]
          exact beq_self_eq_true _
        have h2 : (v0.id == x) = true := by
          rw [hvv]
          exact beq_self_eq_true _
        rw [h1, h2]
        simp
      · have h1 : (v.id == v0.id) = false :=
          beq_eq_false_iff_ne.mpr (by rw [hvx]; exact fun hh => hvv hh.symm)
        have h2 : (v0.id == x) = false := beq_eq_false_iff_ne.mpr hvv
        rw [h1, h2]
        simp
  · have hir : itemRestoresVariant d it x = false := by
      unfold itemRestoresVariant
      rw [hvo]
    rw [hd, hir]
    unfold variantStockById
    show (findVariant d x).map ProductVariant.stock = _
    cases hf : findVariant d x <;> simp
  · have hir : itemRestoresVariant d it x = false := by
      unfold itemRestoresVariant
      rw [hvo]
    rw [hd, hir]
    unfold variantStockById
    cases hf : findVariant d x <;> simp

theorem productStockById_step (d : Db) (it : OrderItem) (x : Nat) :
    productStockById (cancelRestoreItem d it) x =
      (productStockById d x).map
        (· + (if itemRestoresProduct d it x then (it.quantity : Int) else 0)) := by
  rcases cancelRestoreItem_cases d it with ⟨v0, hvo, hd⟩ | ⟨p0, hvo, hpo, hd⟩ | ⟨hvo, hpo, hd⟩
  · have hir : itemRestoresProduct d it x = false := by
      unfold itemRestoresProduct
      rw [hvo]
    rw [hd, hir]
    unfold productStockById
    show (findProduct d x).map Product.stock = _
    cases hf : findProduct d x <;> simp
  · have hir : itemRestoresProduct d it x = (p0.id == x) := by
      unfold itemRestoresProduct
      rw [hvo, hpo]
    have hidp : ∀ w : Product,
        ((if w.id == p0.id then { w with stock := w.stock + (it.quantity : Int) } else w) :
          Product).id = w.id := by
      intro w
      split <;> rfl
    rw [hd, hir]
    unfold productStockById
    rw [findProduct_mapped d _ hidp x]
    cases hf : findProduct d x with
    | none => rfl
    | some p =>
      have hpx : p.id = x := by
        have := List.find?_some hf
        simpa using this
      show some ((if p.id == p0.id then
          { p with stock := p.stock + (it.quantity : Int) } else p) :
          Product).stock = some (p.stock + if (p0.id == x) = true then _ else 0)
      by_cases hpp : p0.id = x
      · have h1 : (p.id == p0.id) = true := by
          rw [hpx, hpp]
          exact beq_self_eq_true _
        have h2 : (p0.id == x) = true := by
          rw [hpp]
          exact beq_self_eq_true _
        rw [h1, h2]
        simp
      · have h1 : (p.id == p0.id) = false :=
          beq_eq_false_iff_ne.mpr (by rw [hpx]; exact fun hh => hpp hh.symm)
        have h2 : (p0.id == x) = false := beq_eq_false_iff_ne.mpr hpp
        rw [h1, h2]
        simp
  · have hir : itemRestoresProduct d it x = false := by
      unfold itemRestoresProduct
      rw [hvo, hpo]
    rw [hd, hir]
    unfold productStockById
    cases hf : findProduct d x <;> simp

theorem variantStockById_fold (L : List OrderItem) (d : Db) (x : Nat) :
    variantStockById (L.foldl cancelRestoreItem d) x =
      (variantStockById d x).map
        (· + (L.map (fun it =>
          if itemRestoresVariant d it x then (it.quantity : Int) else 0)).sum) := by
  induction L generalizing d with
  | nil => cases h : variantStockById d x <;> simp [h]
  | cons it rest ih =>
    rw [List.foldl_cons, ih]
    have hst : ∀ j ∈ rest,
        (if itemRestoresVariant (cancelRestoreItem d it) j x then (j.quantity : Int) else 0) =
        (if itemRestoresVariant d j x then (j.quantity : Int) else 0) := by
      intro j _
      rw [(itemRestores_stable d it j x).1]
    rw [List.map_congr_left hst, variantStockById_step]
    cases h : variantStockById d x with
    | none => rfl
    | some s =>
      simp [Int.add_assoc]

theorem productStockById_fold (L : List OrderItem) (d : Db) (x : Nat) :
    productStockById (L.foldl cancelRestoreItem d) x =
      (productStockById d x).map
        (· + (L.map (fun it =>
          if itemRestoresProduct d it x then (it.quantity : Int) else 0)).sum) := by
  induction L generalizing d with
  | nil => cases h : productStockById d x <;> simp [h]
  | cons it rest ih =>
    rw [List.foldl_cons, ih]
    have hst : ∀ j ∈ rest,
        (if itemRestoresProduct (cancelRestoreItem d it) j x then (j.quantity : Int) else 0) =
        (if itemRestoresProduct d j x then (j.quantity : Int) else 0) := by
      intro j _
      rw [(itemRestores_stable d it j x).2]
    rw [List.map_congr_left hst, productStockById_step]
    cases h : productStockById d x with
    | none => rfl
    | some s =>
      simp [Int.add_assoc]

theorem cancelRestoreItem_frame (d : Db) (it : OrderItem) :
    (cancelRestoreItem d it).orders = d.orders ∧
    (cancelRestoreItem d it).orderItems = d.orderItems ∧
    (cancelRestoreItem d it).payments = d.payments ∧
    (cancelRestoreItem d it).cartItems = d.cartItems := by
  rcases cancelRestoreItem_cases d it with ⟨v0, _, hd⟩ | ⟨p0, _, _, hd⟩ | ⟨_, _, hd⟩ <;>
    rw [hd] <;> exact ⟨rfl, rfl, rfl, rfl⟩

theorem cancelRestore_fold_frame (L : List OrderItem) (d : Db) :
    (L.foldl cancelRestoreItem d).orders = d.orders ∧
    (L.foldl cancelRestoreItem d).orderItems = d.orderItems ∧
    (L.foldl cancelRestoreItem d).payments = d.payments ∧
    (L.foldl cancelRestoreItem d).cartItems = d.cartItems := by
  induction L generalizing d with
  | nil => exact ⟨rfl, rfl, rfl, rfl⟩
  | cons it rest ih =>
    rw [List.foldl_cons]
    have h1 := cancelRestoreItem_frame d it
    have h2 := ih (cancelRestoreItem d it)
    exact ⟨h2.1.trans h1.1, h2.2.1.trans h1.2.1, h2.2.2.1.trans h1.2.2.1,
      h2.2.2.2.trans h1.2.2.2⟩

/-- Claim C2: a cancel request on an order in status shipped, delivered or
cancelled, or with a paid payment status, is rejected with the database
unchanged; an eligible order has each item's quantity added back to the
stock of its referenced variant (or product when no variant resolves), its
status set to cancelled and its payment status to failed, with order items,
payments and cart rows untouched. -/
theorem cancelOrder_spec (db : Db) (actor : Actor) (number : String) (o : Order)
    (hfind : findOrder db actor number = some o) :
    ((o.status = .shipped ∨ o.status = .delivered ∨ o.status = .cancelled) →
      cancelOrder db actor number = (db, .error (.cannotCancelInStatus o.status))) ∧
    (o.status ≠ .shipped → o.status ≠ .delivered → o.status ≠ .cancelled →
      o.payment_status = .paid →
      cancelOrder db actor number = (db, .error .cannotCancelPaid)) ∧
    (o.status ≠ .shipped → o.status ≠ .delivered → o.status ≠ .cancelled →
      o.payment_status ≠ .paid →
      ((cancelOrder db actor number).2 =
        .ok { o with status := OrderStatus.cancelled, payment_status := PayStatus.failed } ∧
       (cancelOrder db actor number).1.orders = db.orders.map (fun x =>
         if x.id == o.id then
           { o with status := OrderStatus.cancelled, payment_status := PayStatus.failed }
         else x) ∧
       (cancelOrder db actor number).1.orderItems = db.orderItems ∧
       (cancelOrder db actor number).1.payments = db.payments ∧
       (cancelOrder db actor number).1.cartItems = db.cartItems ∧
       (∀ vid, variantStockById (cancelOrder db actor number).1 vid =
         (variantStockById db vid).map (· + restoredVariantQty db o.id vid)) ∧
       (∀ pid, productStockById (cancelOrder db actor number).1 pid =
         (productStockById db pid).map (· + restoredProductQty db o.id pid)))) := by
  refine ⟨?_, ?_, ?_⟩
  · intro hst
    have hb : (o.status == OrderStatus.shipped || o.status == OrderStatus.delivered ||
        o.status == OrderStatus.cancelled) = true := by
      rcases hst with h | h | h <;> simp [h]
    unfold cancelOrder
    rw [hfind]
    simp [hb]
  · intro h1 h2 h3 hpaid
    have hb : (o.status == OrderStatus.shipped || o.status == OrderStatus.delivered ||
        o.status == OrderStatus.cancelled) = false := by
      simp [h1, h2, h3]
    have hp : (o.payment_status == PayStatus.paid) = true := by simp [hpaid]
    unfold cancelOrder
    rw [hfind]
    simp [hb, hp]
  · intro h1 h2 h3 hnp
    have hb : (o.status == OrderStatus.shipped || o.status == OrderStatus.delivered ||
        o.status == OrderStatus.cancelled) = false := by
      simp [h1, h2, h3]
    have hp : (o.payment_status == PayStatus.paid) = false := by simp [hnp]
    have hred : cancelOrder db actor number =
        ({ (orderItemsOf db o.id).foldl cancelRestoreItem db with
           orders := ((orderItemsOf db o.id).foldl cancelRestoreItem db).orders.map
             (fun x => if x.id == o.id then
                { o with status := OrderStatus.cancelled,
                         payment_status := PayStatus.failed } else x) },
         .ok { o with status := OrderStatus.cancelled,
                      payment_status := PayStatus.failed }) := by
      unfold cancelOrder
      rw [hfind]
      simp [hb, hp]
    have hframe := cancelRestore_fold_frame (orderItemsOf db o.id) db
    rw [hred]
    refine ⟨rfl, ?_, ?_, ?_, ?_, ?_, ?_⟩
    · show ((orderItemsOf db o.id).foldl cancelRestoreItem db).orders.map _ = _
      rw [hframe.1]
    · exact hframe.2.1
    · exact hframe.2.2.1
    · exact hframe.2.2.2
    · intro vid
      show variantStockById ((orderItemsOf db o.id).foldl cancelRestoreItem db) vid = _
      rw [variantStockById_fold]
      rfl
    · intro pid
      show productStockById ((orderItemsOf db o.id).foldl cancelRestoreItem db) pid = _
      rw [productStockById_fold]
      rfl

/-- The store after the guest checkout: variant stock is down to 2, the
order row, its item and its payment exist, the cart is empty. -/
def dbCancel : Db :=
  ⟨[prodHelmet, prodGloves],
   [{ varRed with stock := 2 }],
   [], [cartGuest], [],
   [orderW],
   [⟨1, some 1, some 1, "Helmet", "V1", "Red", 3, 80, 240⟩],
   [⟨1, "cod", 300, false⟩],
   2, 1⟩

/-- Witness for `cancelOrder_spec`: cancelling the pending, unpaid guest
order restores the variant stock from 2 back to 5 and flips the statuses. -/
theorem cancelOrder_spec_witness :
    findOrder dbCancel (.guest (some "s")) "ORD-1" = some orderW ∧
    (cancelOrder dbCancel (.guest (some "s")) "ORD-1").2 =
      .ok { orderW with status := OrderStatus.cancelled,
                        payment_status := PayStatus.failed } ∧
    variantStockById (cancelOrder dbCancel (.guest (some "s")) "ORD-1").1 1 = some 5 := by
  have h := cancelOrder_spec dbCancel (.guest (some "s")) "ORD-1" orderW (by decide)
  refine ⟨by decide, ?_, ?_⟩
  · exact (h.2.2 (by decide) (by decide) (by decide) (by decide)).1
  · have hs := (h.2.2 (by decide) (by decide) (by decide) (by decide)).2.2.2.2.2.1 1
    rw [hs]
    decide

end BikeGear
